import Mathlib

/-!
Verification development for the X12 EDI parsing and validation engine.

The Rust sources are shallowly embedded as executable Lean definitions:

* Rust str::split(char) is embedded as splitChar, operating on the char
  list of a string (same semantics: "a*b*" splits to ["a", "b", ""]).
* Rust str::trim and char::is_whitespace are embedded as rustTrim and
  rustIsWhitespace (full Unicode White_Space list).
* Rust str::len (byte length) is embedded as utf8Len.
* Rust u32/usize::from_str is embedded as rustParseUInt with the
  corresponding overflow bound; f64::from_str never fails on overflow, so
  "value.parse::<f64>().is_err()" is the (purely syntactic) complement of
  the documented float grammar, embedded as rustF64Ok.
* Error messages produced with format! are embedded as inductive
  constructors carrying exactly the interpolated arguments of the
  corresponding call site (one constructor per call site, listed with the
  original format string next to each constructor); messages that are
  fixed strings stay fixed constructors.  Two distinct call sites never
  produce equal Rust strings, so this is message-equality preserving.
* HashMap-based occurrence counts are embedded as update functions; the
  version/segment registries, whose keys are inserted once and are
  pairwise distinct, are embedded as case analyses on the key.

One divergence of the sources themselves: models/interchange.rs declares a
field "version" on InterchangeControl that X12Parser::parse never
initializes (the struct literal in x12.rs omits it); the parser module is
the authority here, so the embedded InterchangeControl has the three
fields the parser constructs.
-/

namespace EDI

/-! ## Rust string primitives -/

/-- Rust char::is_whitespace: the Unicode White_Space property. -/
def rustIsWhitespace (c : Char) : Bool :=
  let n := c.toNat
  (9 ≤ n && n ≤ 13) || n = 32 || n = 0x85 || n = 0xA0 || n = 0x1680 ||
  (0x2000 ≤ n && n ≤ 0x200A) || n = 0x2028 || n = 0x2029 || n = 0x202F ||
  n = 0x205F || n = 0x3000

/-- Rust str::trim on the character list. -/
def rustTrimList (l : List Char) : List Char :=
  ((l.dropWhile rustIsWhitespace).reverse.dropWhile rustIsWhitespace).reverse

/-- Rust str::trim. -/
def rustTrim (s : String) : String :=
  ⟨rustTrimList s.data⟩

/-- Worker for splitChar: current (reversed) chunk is the accumulator. -/
def splitCharAux (sep : Char) : List Char → List Char → List (List Char)
  | [], acc => [acc.reverse]
  | c :: cs, acc =>
    if c = sep then acc.reverse :: splitCharAux sep cs []
    else splitCharAux sep cs (c :: acc)

/-- Rust str::split(char): always yields at least one piece; a trailing
separator yields a final empty piece. -/
def splitChar (sep : Char) (s : String) : List String :=
  (splitCharAux sep s.data []).map fun l => ⟨l⟩

/-- UTF-8 byte width of one scalar value. -/
def utf8CharLen (c : Char) : Nat :=
  if c.toNat < 0x80 then 1
  else if c.toNat < 0x800 then 2
  else if c.toNat < 0x10000 then 3
  else 4

/-- Rust str::len: the UTF-8 byte length. -/
def utf8Len (s : String) : Nat :=
  (s.data.map utf8CharLen).sum

/-- Rust str::starts_with(str) (byte prefix; chars suffice since UTF-8
prefixes of scalar sequences coincide with scalar prefixes). -/
def rustStartsWith (pre s : String) : Bool :=
  pre.data.isPrefixOf s.data

/-- Rust char::is_ascii_digit. -/
def isAsciiDigit (c : Char) : Bool :=
  0x30 ≤ c.toNat && c.toNat ≤ 0x39

/-- Digit-list value, most significant first. -/
def digitsVal : List Char → Nat → Nat
  | [], acc => acc
  | c :: cs, acc => digitsVal cs (acc * 10 + (c.toNat - 0x30))

/-- Rust unsigned integer from_str with exclusive bound (2^32 for u32,
2^64 for usize): optional leading plus sign, then one or more ASCII
digits, error on overflow. -/
def rustParseUInt (bound : Nat) (s : String) : Option Nat :=
  let l := match s.data with
    | '+' :: rest => rest
    | l => l
  if l.isEmpty then none
  else if l.all isAsciiDigit then
    let v := digitsVal l 0
    if v < bound then some v else none
  else none

/-- Rust u32::from_str. -/
def rustParseU32 (s : String) : Option Nat := rustParseUInt (2 ^ 32) s

/-- Rust usize::from_str (64-bit target). -/
def rustParseUsize (s : String) : Option Nat := rustParseUInt (2 ^ 64) s

/-- Lower-cased copy of an ASCII letter list (for the case-insensitive
special float values). -/
def asciiLower (l : List Char) : List Char :=
  l.map fun c =>
    if 0x41 ≤ c.toNat ∧ c.toNat ≤ 0x5A then Char.ofNat (c.toNat + 32) else c

/-- Exponent part of the Rust float grammar: (e|E) Sign? Digit+. -/
def floatExpOk : List Char → Bool
  | e :: rest =>
    if e = 'e' ∨ e = 'E' then
      let rest := match rest with
        | '+' :: r => r
        | '-' :: r => r
        | r => r
      !rest.isEmpty && rest.all isAsciiDigit
    else false
  | [] => false

/-- Number part of the Rust float grammar:
Digit+ (. Digit*)? Exp?  or  . Digit+ Exp?. -/
def floatNumberOk (l : List Char) : Bool :=
  match l with
  | '.' :: rest =>
    let digits := rest.takeWhile isAsciiDigit
    let after := rest.dropWhile isAsciiDigit
    !digits.isEmpty && (after.isEmpty || floatExpOk after)
  | _ =>
    let digits := l.takeWhile isAsciiDigit
    let after := l.dropWhile isAsciiDigit
    !digits.isEmpty &&
      (match after with
       | [] => true
       | '.' :: rest =>
         let after2 := rest.dropWhile isAsciiDigit
         after2.isEmpty || floatExpOk after2
       | _ => floatExpOk after)

/-- Rust f64::from_str succeeds (purely syntactic: overflow gives
infinity, not an error): Sign? (inf | infinity | nan | Number), the
special words case-insensitive. -/
def rustF64Ok (s : String) : Bool :=
  let l := match s.data with
    | '+' :: rest => rest
    | '-' :: rest => rest
    | l => l
  let low := asciiLower l
  low = "inf".data || low = "infinity".data || low = "nan".data || floatNumberOk l

/-! ## Core data model (models/segment.rs, transaction.rs, interchange.rs) -/

/-- models/segment.rs: Segment. -/
structure Segment where
  id : String
  elements : List String
deriving DecidableEq, Repr

/-- models/transaction.rs: TransactionType. -/
inductive TransactionType where
  | invoice810
  | purchaseOrder850
  | unknown (s : String)
deriving DecidableEq, Repr

/-- models/transaction.rs: TransactionType::from_id. -/
def TransactionType.fromId (id : String) : TransactionType :=
  if id = "810" then .invoice810
  else if id = "850" then .purchaseOrder850
  else .unknown id

/-- models/transaction.rs: Transaction. -/
structure Transaction where
  segments : List Segment
  transaction_set_id : String
  control_number : String
  transaction_type : TransactionType
deriving DecidableEq, Repr

/-- models/transaction.rs: Transaction::new (derives the type from the id). -/
def Transaction.new (segments : List Segment) (tsid cn : String) : Transaction :=
  ⟨segments, tsid, cn, TransactionType.fromId tsid⟩

/-- models/interchange.rs: FunctionalGroup. -/
structure FunctionalGroup where
  gs_segment : Segment
  ge_segment : Option Segment
  transactions : List Transaction
deriving DecidableEq, Repr

/-- models/interchange.rs: InterchangeControl, with the three fields
X12Parser::parse constructs (see the header note on the version field). -/
structure InterchangeControl where
  isa_segment : Segment
  iea_segment : Option Segment
  functional_groups : List FunctionalGroup
deriving DecidableEq, Repr

/-! ## Errors (error.rs), with structured ValidationError payloads -/

/-- models/segment_definition.rs: X12Version. -/
inductive X12Version where
  | v4010
  | v5010
  | v8010
deriving DecidableEq, Repr

/-- Structured payload of EdiError::ValidationError, one constructor per
format! call site; the original format string is quoted next to each. -/
inductive VMsg where
  /-- x12.rs message: IEA control number does not match ISA. -/
  | ieaCtrlMismatch
  /-- x12.rs message: GE control number does not match GS. -/
  | geCtrlMismatch
  /-- validated_element.rs: "Required element \x7b\x7d (ID: \x7b\x7d) at position \x7b\x7d is missing" -/
  | elemMissing (name : String) (id : Nat) (pos : Nat)
  /-- validated_element.rs: "... \x7b\x7d is too short (min: \x7b\x7d)" (value in single quotes) -/
  | elemTooShort (name : String) (id : Nat) (pos : Nat) (value : String) (minLen : Nat)
  /-- validated_element.rs: "... \x7b\x7d is too long (max: \x7b\x7d)" (value in single quotes) -/
  | elemTooLong (name : String) (id : Nat) (pos : Nat) (value : String) (maxLen : Nat)
  /-- validated_element.rs: "... must be numeric" -/
  | elemNotNumeric (name : String) (id : Nat) (pos : Nat) (value : String)
  /-- validated_element.rs: "... must be a valid decimal number" -/
  | elemNotDecimal (name : String) (id : Nat) (pos : Nat) (value : String)
  /-- validated_element.rs: "... has invalid month" -/
  | elemBadMonth (name : String) (id : Nat) (pos : Nat) (value : String)
  /-- validated_element.rs: "... has invalid day" -/
  | elemBadDay (name : String) (id : Nat) (pos : Nat) (value : String)
  /-- validated_element.rs: "... must be a valid date (CCYYMMDD)" -/
  | elemBadDate (name : String) (id : Nat) (pos : Nat) (value : String)
  /-- validated_element.rs: "... has invalid hour" -/
  | elemBadHour (name : String) (id : Nat) (pos : Nat) (value : String)
  /-- validated_element.rs: "... has invalid minute" -/
  | elemBadMinute (name : String) (id : Nat) (pos : Nat) (value : String)
  /-- validated_element.rs: "... has invalid second" -/
  | elemBadSecond (name : String) (id : Nat) (pos : Nat) (value : String)
  /-- validated_element.rs: "... must be a valid time (HHMM or HHMMSS)" -/
  | elemBadTime (name : String) (id : Nat) (pos : Nat) (value : String)
  /-- validated_element.rs: "... Binary data cannot be empty" -/
  | elemBinaryEmpty (name : String) (id : Nat) (pos : Nat)
  /-- validated_element.rs: "... \x7b\x7d is not a valid code. Valid codes: \x7b:?\x7d" (value in single quotes) -/
  | elemInvalidCode (name : String) (id : Nat) (pos : Nat) (value : String) (codes : List String)
  /-- validating_parser.rs: "Unknown segment \x7b\x7d for version \x7b:?\x7d" (id in single quotes) -/
  | unknownSegmentForVersion (segId : String) (version : X12Version)
  /-- control.rs: "ST control number cannot be empty" -/
  | stCtrlEmpty
  /-- purchase_order_850.rs: "SE control number cannot be empty" -/
  | seCtrlEmpty
  /-- purchase_order.rs: "Purchase order number cannot be empty" -/
  | poNumberEmpty
  /-- purchase_order.rs: "Line item count cannot be zero" -/
  | cttZeroCount
  /-- purchase_order.rs: "Invalid line item count format" -/
  | cttBadCountFormat
  /-- common.rs: "Entity identifier code cannot be empty" -/
  | n1EntityEmpty
  /-- purchase_order_850.rs: "ST and SE control numbers must match" -/
  | stSeCtrlMismatch
  /-- purchase_order_850.rs: "Expected \x7b\x7d line items, found \x7b\x7d" -/
  | lineItemCountMismatch (expected actual : Nat)
deriving DecidableEq, Repr

/-- error.rs: EdiError (the variants exercised by the embedded code). -/
inductive EdiError where
  | invalidSegmentFormat (s : String)
  | missingRequiredSegment (s : String)
  | invalidControlStructure
  | unsupportedTransactionType (s : String)
  | validationError (m : VMsg)
  /-- ValidationError sites whose payload is a fixed or free-form plain
  string not inspected by any claim (x12.rs "ISA segment must have at
  least 15 elements" is InvalidSegmentFormat and kept as a string). -/
  | validationErrorStr (s : String)
deriving DecidableEq, Repr

/-- Decidable equality of Rust Result values. -/
instance {ε α : Type} [DecidableEq ε] [DecidableEq α] : DecidableEq (Except ε α) := fun x y =>
  match x, y with
  | .ok a, .ok b =>
    match decEq a b with
    | isTrue h => isTrue (by rw [h])
    | isFalse h => isFalse fun hh => h (Except.ok.inj hh)
  | .error a, .error b =>
    match decEq a b with
    | isTrue h => isTrue (by rw [h])
    | isFalse h => isFalse fun hh => h (Except.error.inj hh)
  | .ok _, .error _ => isFalse fun hh => Except.noConfusion hh
  | .error _, .ok _ => isFalse fun hh => Except.noConfusion hh

/-! ## X12 parser (parsers/x12.rs) -/

/-- parsers/x12.rs: X12Parser configuration. -/
structure X12Parser where
  element_separator : Char
  segment_separator : Char
  sub_element_separator : Char
  strict_validation : Bool
  trim_whitespace : Bool
deriving DecidableEq, Repr

/-- x12.rs: impl Default for X12Parser. -/
def X12Parser.default : X12Parser :=
  ⟨'*', '~', '>', false, true⟩

/-- x12.rs: X12Parser::with_delimiters. -/
def X12Parser.withDelimiters (e s sub : Char) : X12Parser :=
  ⟨e, s, sub, false, true⟩

/-- x12.rs: X12Parser::trim_whitespace (the method). -/
def X12Parser.trimWs (p : X12Parser) (s : String) : String :=
  if p.trim_whitespace then rustTrim s else s

/-- The element list of X12Parser::parse_segment before the emptiness
check: split on the element separator, trim each piece. -/
def splitElems (p : X12Parser) (line : String) : List String :=
  (splitChar p.element_separator line).map p.trimWs

/-- x12.rs: X12Parser::parse_segment. -/
def parseSegmentX12 (p : X12Parser) (line : String) : Except EdiError Segment :=
  match splitElems p line with
  | [] => .error (.invalidSegmentFormat line)
  | e0 :: rest => .ok ⟨e0, rest⟩

/-- Total companion of parse_segment (the split is never empty). -/
def parseSegTotal (p : X12Parser) (line : String) : Segment :=
  match splitElems p line with
  | [] => ⟨"", []⟩
  | e0 :: rest => ⟨e0, rest⟩

/-- First char of a string, with a default (str::chars().next().unwrap_or). -/
def headCharD (s : String) (d : Char) : Char :=
  match s.data with
  | [] => d
  | c :: _ => c

/-- x12.rs: X12Parser::extract_delimiters_from_isa.  The Rust code indexes
elements[16], which panics when the split has exactly 16 pieces; that case
is embedded with a default and every theorem touching it assumes at least
17 pieces. -/
def extractDelimitersFromIsa (isaSegment : String) : Except EdiError (Char × Char × Char) :=
  let elements := splitChar '*' isaSegment
  if elements.length < 16 then .error (.invalidSegmentFormat isaSegment)
  else .ok ('*', headCharD (elements.getD 15 "") '~', headCharD (elements.getD 16 "") '>')

/-- x12.rs: X12Parser::parse_isa_segment. -/
def parseIsaSegment (p : X12Parser) (isaLine : String) : Except EdiError Segment :=
  let trimmed := p.trimWs isaLine
  let elements := (splitChar '*' trimmed).map p.trimWs
  if elements.length < 16 then .error (.invalidSegmentFormat isaLine)
  else .ok ⟨"ISA", elements.tail⟩

/-- The non-blank record list of X12Parser::parse: split the input on the
configured segment separator and drop blank pieces. -/
def nonBlankRecords (segSep : Char) (input : String) : List String :=
  (splitChar segSep input).filter fun s => !(rustTrim s).isEmpty

/-- The parser used for the remainder of the document (x12.rs lines
124-132): the discovered delimiters when they differ from the configured
ones, the configured parser otherwise. -/
def resolveDelims (p : X12Parser) (isaRec : String) : Except EdiError X12Parser := do
  let (ae, asg, asub) ← extractDelimitersFromIsa isaRec
  pure (if ae ≠ p.element_separator ∨ asg ≠ p.segment_separator then
          X12Parser.withDelimiters ae asg asub
        else p)

/-- Fold state of the assembly loop in X12Parser::parse. -/
structure AsmState where
  fgs : List FunctionalGroup
  curFg : Option FunctionalGroup
  curTx : Option Transaction
deriving DecidableEq, Repr

/-- One iteration of the assembly loop of X12Parser::parse, keyed on the
id of the parsed segment. -/
def asmStep (q : X12Parser) (st : AsmState) (segStr : String) : Except EdiError AsmState := do
  let segment ← parseSegmentX12 q segStr
  if segment.id = "GS" then
    pure { fgs := match st.curFg with
                  | some fg => st.fgs ++ [fg]
                  | none => st.fgs,
           curFg := some ⟨segment, none, []⟩,
           curTx := st.curTx }
  else if segment.id = "GE" then
    pure { fgs := match st.curFg with
                  | some fg => st.fgs ++ [{ fg with ge_segment := some segment }]
                  | none => st.fgs,
           curFg := none,
           curTx := st.curTx }
  else if segment.id = "ST" then do
    let st1 : AsmState :=
      match st.curTx, st.curFg with
      | some tx, some fg =>
        { st with curFg := some { fg with transactions := fg.transactions ++ [tx] },
                  curTx := none }
      | some _, none => { st with curTx := none }
      | none, _ => st
    let tsid ← match segment.elements.get? 0 with
      | some v => pure v
      | none => throw (EdiError.invalidSegmentFormat segStr)
    let cn ← match segment.elements.get? 1 with
      | some v => pure v
      | none => throw (EdiError.invalidSegmentFormat segStr)
    pure { st1 with curTx := some (Transaction.new [segment] tsid cn) }
  else if segment.id = "SE" then
    pure (match st.curTx with
          | some tx =>
            let tx2 := { tx with segments := tx.segments ++ [segment] }
            match st.curFg with
            | some fg =>
              { st with curFg := some { fg with transactions := fg.transactions ++ [tx2] },
                        curTx := none }
            | none => { st with curTx := none }
          | none => st)
  else
    pure (match st.curTx with
          | some tx => { st with curTx := some { tx with segments := tx.segments ++ [segment] } }
          | none => st)

/-- The assembly loop over the records after the interchange header. -/
def runAsm (q : X12Parser) (st : AsmState) : List String → Except EdiError AsmState
  | [] => .ok st
  | r :: rs => asmStep q st r >>= fun st2 => runAsm q st2 rs

/-- End-of-input flush of X12Parser::parse: a still-open transaction is
attached to the open group (dropped otherwise), then a still-open group is
flushed. -/
def finalizeAsm (st : AsmState) : List FunctionalGroup :=
  let st1 : AsmState :=
    match st.curTx with
    | some tx =>
      match st.curFg with
      | some fg =>
        { st with curFg := some { fg with transactions := fg.transactions ++ [tx] },
                  curTx := none }
      | none => { st with curTx := none }
    | none => st
  match st1.curFg with
  | some fg => st1.fgs ++ [fg]
  | none => st1.fgs

/-- x12.rs: the trailer lookup of X12Parser::parse: the first record (at
any position, the header record included) starting with "IEA". -/
def findIea (q : X12Parser) (records : List String) : Except EdiError (Option Segment) :=
  match records.find? (fun s => rustStartsWith "IEA" s) with
  | none => .ok none
  | some r => do
    let seg ← parseSegmentX12 q r
    pure (some seg)

/-- x12.rs: X12Parser::parse. -/
def x12Parse (p : X12Parser) (input : String) : Except EdiError InterchangeControl := do
  let records := nonBlankRecords p.segment_separator input
  match records with
  | [] => .error (.invalidSegmentFormat "Empty input")
  | rec0 :: rest => do
    let isa ← parseIsaSegment p rec0
    let q ← resolveDelims p rec0
    let stEnd ← runAsm q ⟨[], none, none⟩ rest
    let fgs := finalizeAsm stEnd
    let iea ← findIea q (rec0 :: rest)
    pure ⟨isa, iea, fgs⟩

/-- x12.rs: the transaction sub-loop of X12Parser::validate: the first
segment, when present, must be ST; the last, when present, must be SE. -/
def validateTxList : List Transaction → Except EdiError Unit
  | [] => .ok ()
  | t :: ts => do
    (match t.segments.head? with
     | some stSeg =>
       if stSeg.id ≠ "ST" then throw (EdiError.missingRequiredSegment "ST") else pure ()
     | none => pure ())
    (match t.segments.getLast? with
     | some seSeg =>
       if seSeg.id ≠ "SE" then throw (EdiError.missingRequiredSegment "SE") else pure ()
     | none => pure ())
    validateTxList ts

/-- x12.rs: the functional-group sub-loop of X12Parser::validate. -/
def validateFgList : List FunctionalGroup → Except EdiError Unit
  | [] => .ok ()
  | fg :: fgs => do
    if fg.gs_segment.id ≠ "GS" then throw (EdiError.missingRequiredSegment "GS") else pure ()
    (match fg.ge_segment with
     | some ge => do
       if ge.id ≠ "GE" then throw EdiError.invalidControlStructure else pure ()
       (match fg.gs_segment.elements.get? 5, ge.elements.get? 1 with
        | some gsCtrl, some geCtrl =>
          if gsCtrl ≠ geCtrl then throw (EdiError.validationError .geCtrlMismatch) else pure ()
        | _, _ => pure ())
     | none => pure ())
    validateTxList fg.transactions
    validateFgList fgs

/-- x12.rs: X12Parser::validate. -/
def x12Validate (ic : InterchangeControl) : Except EdiError Unit := do
  if ic.isa_segment.id ≠ "ISA" then
    throw (EdiError.missingRequiredSegment "ISA") else pure ()
  if ic.isa_segment.elements.length < 15 then
    throw (EdiError.invalidSegmentFormat "ISA segment must have at least 15 elements") else pure ()
  (match ic.iea_segment with
   | some iea => do
     if iea.id ≠ "IEA" then throw EdiError.invalidControlStructure else pure ()
     (match ic.isa_segment.elements.get? 12, iea.elements.get? 1 with
      | some isaCtrl, some ieaCtrl =>
        if isaCtrl ≠ ieaCtrl then throw (EdiError.validationError .ieaCtrlMismatch) else pure ()
      | _, _ => pure ())
   | none => pure ())
  validateFgList ic.functional_groups

/-! ## Segment definitions and registry (models/segment_definition.rs) -/

/-- segment_definition.rs: ElementRequirement. -/
inductive ElementRequirement where
  | mandatory
  | optional
  | conditional
deriving DecidableEq, Repr

/-- segment_definition.rs: ElementDataType. -/
inductive ElementDataType where
  | an
  | n
  | r
  | id
  | dt
  | tm
  | b
deriving DecidableEq, Repr

/-- segment_definition.rs: ElementDefinition. -/
structure ElementDefinition where
  element_id : Nat
  name : String
  data_type : ElementDataType
  min_length : Option Nat
  max_length : Option Nat
  requirement : ElementRequirement
  description : String
  valid_codes : Option (List String)
deriving DecidableEq, Repr

/-- segment_definition.rs: SegmentDefinition. -/
structure SegmentDefinition where
  id : String
  name : String
  elements : List ElementDefinition
  min_usage : Nat
  max_usage : Option Nat
  description : String
deriving DecidableEq, Repr

/-- BEG01, element 353 (Transaction Set Purpose Code). -/
def begElem353 : ElementDefinition :=
  { element_id := 353, name := "Transaction Set Purpose Code",
    data_type := .id, min_length := some 2, max_length := some 2,
    requirement := .mandatory,
    description := "Code identifying purpose of transaction set",
    valid_codes := some ["00", "01", "04", "05"] }

/-- BEG02, element 92 (Purchase Order Type Code). -/
def begElem92 : ElementDefinition :=
  { element_id := 92, name := "Purchase Order Type Code",
    data_type := .id, min_length := some 2, max_length := some 2,
    requirement := .mandatory,
    description := "Code specifying the type of Purchase Order",
    valid_codes := some ["NE", "RL", "SA"] }

/-- BEG03, element 324 (Purchase Order Number). -/
def begElem324 : ElementDefinition :=
  { element_id := 324, name := "Purchase Order Number",
    data_type := .an, min_length := some 1, max_length := some 22,
    requirement := .mandatory,
    description := "Identifying number for Purchase Order",
    valid_codes := none }

/-- BEG04, element 328 (Release Number). -/
def begElem328 : ElementDefinition :=
  { element_id := 328, name := "Release Number",
    data_type := .an, min_length := some 1, max_length := some 30,
    requirement := .optional,
    description := "Number identifying a release against a Purchase Order previously placed by the parties involved in the transaction",
    valid_codes := none }

/-- BEG05, element 373 (Date). -/
def begElem373 : ElementDefinition :=
  { element_id := 373, name := "Date",
    data_type := .dt, min_length := some 8, max_length := some 8,
    requirement := .mandatory,
    description := "Date expressed as CCYYMMDD",
    valid_codes := none }

/-- segment_definition.rs: the BEG definition of register_beg_segment. -/
def begDefinition : SegmentDefinition where
  id := "BEG"
  name := "Beginning Segment for Purchase Order"
  elements := [begElem353, begElem92, begElem324, begElem328, begElem373]
  min_usage := 1
  max_usage := some 1
  description := "To indicate the beginning of the Purchase Order Transaction Set and transmit identifying numbers and dates"

/-- segment_definition.rs: the CUR definition of register_cur_segment. -/
def curDefinition : SegmentDefinition where
  id := "CUR"
  name := "Currency"
  elements :=
    [ { element_id := 98, name := "Entity Identifier Code",
        data_type := .id, min_length := some 2, max_length := some 3,
        requirement := .mandatory,
        description := "Code identifying an organizational entity, a physical location, property or an individual",
        valid_codes := some ["BY", "SE", "PR", "PE"] },
      { element_id := 100, name := "Currency Code",
        data_type := .id, min_length := some 3, max_length := some 3,
        requirement := .mandatory,
        description := "Code (Standard ISO) for country in whose currency the charges are specified",
        valid_codes := some ["USD", "CAD", "EUR", "GBP", "JPY"] },
      { element_id := 280, name := "Exchange Rate",
        data_type := .r, min_length := some 4, max_length := some 10,
        requirement := .optional,
        description := "Value to be used as a multiplier conversion factor to convert monetary value from one currency to another",
        valid_codes := none } ]
  min_usage := 0
  max_usage := some 1
  description := "To specify the currency (dollars, pounds, francs, etc.) used in a transaction"

/-- segment_definition.rs: the REF definition of register_ref_segment. -/
def refDefinition : SegmentDefinition where
  id := "REF"
  name := "Reference Identification"
  elements :=
    [ { element_id := 128, name := "Reference Identification Qualifier",
        data_type := .id, min_length := some 2, max_length := some 3,
        requirement := .mandatory,
        description := "Code qualifying the Reference Identification",
        valid_codes := some ["DP", "IA", "PD"] },
      { element_id := 127, name := "Reference Identification",
        data_type := .an, min_length := some 1, max_length := some 50,
        requirement := .optional,
        description := "Reference information as defined for a particular Transaction Set",
        valid_codes := none } ]
  min_usage := 1
  max_usage := some 12
  description := "To specify identifying information"

/-- segment_definition.rs: the PO1 definition of register_po1_segment. -/
def po1Definition : SegmentDefinition where
  id := "PO1"
  name := "Baseline Item Data"
  elements :=
    [ { element_id := 350, name := "Assigned Identification",
        data_type := .an, min_length := some 1, max_length := some 20,
        requirement := .optional,
        description := "Alphanumeric characters assigned for differentiation within a transaction set",
        valid_codes := none },
      { element_id := 330, name := "Quantity Ordered",
        data_type := .r, min_length := some 1, max_length := some 15,
        requirement := .mandatory,
        description := "Quantity ordered",
        valid_codes := none } ]
  min_usage := 1
  max_usage := some 100000
  description := "To specify basic and most frequently used line item data"

/-- segment_definition.rs: SegmentRegistry::get_definition for the
registry built by SegmentRegistry::new.  register_standard_segments
registers BEG, CUR, REF and PO1 (DTM, N1 and CTT are commented out), each
for all three versions with identical definitions, so the HashMap lookup
is a case analysis on the segment id alone. -/
def registryGetDefinition (_version : X12Version) (segId : String) : Option SegmentDefinition :=
  if segId = "BEG" then some begDefinition
  else if segId = "CUR" then some curDefinition
  else if segId = "REF" then some refDefinition
  else if segId = "PO1" then some po1Definition
  else none

/-! ## Validated elements (models/validated_element.rs) -/

/-- validated_element.rs: ValidatedElement. -/
structure ValidatedElement where
  definition : ElementDefinition
  value : Option String
  position : Nat
deriving DecidableEq, Repr

/-- validated_element.rs: ValidatedElement::validate_data_type. -/
def validateDataType (e : ValidatedElement) (value : String) : Except EdiError Unit :=
  let d := e.definition
  match d.data_type with
  | .n =>
    if !(value.data.all isAsciiDigit) then
      .error (.validationError (.elemNotNumeric d.name d.element_id e.position value))
    else .ok ()
  | .r =>
    if !(rustF64Ok value) then
      .error (.validationError (.elemNotDecimal d.name d.element_id e.position value))
    else .ok ()
  | .dt =>
    if utf8Len value = 8 ∧ value.data.all isAsciiDigit then
      let month := digitsVal ((value.data.drop 4).take 2) 0
      let day := digitsVal ((value.data.drop 6).take 2) 0
      if month < 1 ∨ month > 12 then
        .error (.validationError (.elemBadMonth d.name d.element_id e.position value))
      else if day < 1 ∨ day > 31 then
        .error (.validationError (.elemBadDay d.name d.element_id e.position value))
      else .ok ()
    else
      .error (.validationError (.elemBadDate d.name d.element_id e.position value))
  | .tm =>
    if (utf8Len value = 4 ∨ utf8Len value = 6) ∧ value.data.all isAsciiDigit then
      let hour := digitsVal (value.data.take 2) 0
      let minute := digitsVal ((value.data.drop 2).take 2) 0
      if hour > 23 then
        .error (.validationError (.elemBadHour d.name d.element_id e.position value))
      else if minute > 59 then
        .error (.validationError (.elemBadMinute d.name d.element_id e.position value))
      else if utf8Len value = 6 then
        let second := digitsVal ((value.data.drop 4).take 2) 0
        if second > 59 then
          .error (.validationError (.elemBadSecond d.name d.element_id e.position value))
        else .ok ()
      else .ok ()
    else
      .error (.validationError (.elemBadTime d.name d.element_id e.position value))
  | .an => .ok ()
  | .id => .ok ()
  | .b =>
    if value.isEmpty ∧ d.requirement = .mandatory then
      .error (.validationError (.elemBinaryEmpty d.name d.element_id e.position))
    else .ok ()

/-- validated_element.rs: ValidatedElement::validate. -/
def validateVE (e : ValidatedElement) : Except EdiError Unit := do
  let d := e.definition
  if d.requirement = .mandatory ∧ e.value = none then
    throw (EdiError.validationError (.elemMissing d.name d.element_id e.position)) else pure ()
  match e.value with
  | none => pure ()
  | some value => do
    if value.isEmpty ∧ d.requirement ≠ .mandatory then pure ()
    else do
      (match d.min_length with
       | some minLen =>
         if utf8Len value < minLen then
           throw (EdiError.validationError (.elemTooShort d.name d.element_id e.position value minLen))
         else pure ()
       | none => pure ())
      (match d.max_length with
       | some maxLen =>
         if utf8Len value > maxLen then
           throw (EdiError.validationError (.elemTooLong d.name d.element_id e.position value maxLen))
         else pure ()
       | none => pure ())
      validateDataType e value
      (match d.valid_codes with
       | some codes =>
         if !(codes.contains value) then
           throw (EdiError.validationError (.elemInvalidCode d.name d.element_id e.position value codes))
         else pure ()
       | none => pure ())

/-- validated_element.rs: ValidatedSegment. -/
structure ValidatedSegment where
  segment_id : String
  elements : List ValidatedElement
deriving DecidableEq, Repr

/-- validated_element.rs: ValidatedSegment::validate (first failing
element aborts). -/
def validateVSList : List ValidatedElement → Except EdiError Unit
  | [] => .ok ()
  | e :: es => validateVE e >>= fun _ => validateVSList es

/-- validated_element.rs: ValidatedSegment::validate. -/
def ValidatedSegment.validate (vs : ValidatedSegment) : Except EdiError Unit :=
  validateVSList vs.elements

/-- The element list built by ValidatingSegmentParser::parse_and_validate:
one ValidatedElement per definition element, 1-based positions, values
looked up by 0-based index in the input segment. -/
def buildValidatedElems (d : SegmentDefinition) (seg : Segment) : List ValidatedElement :=
  d.elements.enum.map fun pe => ⟨pe.2, seg.elements.get? pe.1, pe.1 + 1⟩

/-- validating_parser.rs: ValidatingSegmentParser::parse_and_validate. -/
def parseAndValidate (version : X12Version) (seg : Segment) : Except EdiError ValidatedSegment := do
  match registryGetDefinition version seg.id with
  | none => .error (.validationError (.unknownSegmentForVersion seg.id version))
  | some d => do
    let vs : ValidatedSegment := ⟨seg.id, buildValidatedElems d seg⟩
    vs.validate
    pure vs

/-! ## Implementation-guide schema (validation/schema.rs), namespace Schema -/

namespace Schema

/-- validation/schema.rs: DataType. -/
inductive DataType where
  | an
  | n
  | r
  | id
  | dt
  | tm
  | b
deriving DecidableEq, Repr

/-- validation/schema.rs: ElementUsage. -/
inductive ElementUsage where
  | required
  | optional
  | conditional
  | notUsed
deriving DecidableEq, Repr

/-- Findings pushed by ElementDefinition::validate_value, one constructor
per format! call site (original format strings quoted). -/
inductive Finding where
  /-- "Element \x7b\x7d too short: \x7b\x7d chars, minimum \x7b\x7d" -/
  | tooShort (ref : String) (chars : Nat) (minLen : Nat)
  /-- "Element \x7b\x7d too long: \x7b\x7d chars, maximum \x7b\x7d" -/
  | tooLong (ref : String) (chars : Nat) (maxLen : Nat)
  /-- "Element \x7b\x7d must be numeric" -/
  | mustBeNumeric (ref : String)
  /-- "Element \x7b\x7d must be a valid decimal" -/
  | mustBeDecimal (ref : String)
  /-- "Element \x7b\x7d invalid date format, expected \x7b\x7d" -/
  | badDateFormat (ref : String) (fmt : String)
  /-- "Element \x7b\x7d invalid code \x7b\x7d, valid codes: \x7b:?\x7d" (value in single quotes) -/
  | invalidCode (ref : String) (value : String) (codes : List String)
deriving DecidableEq, Repr

/-- validation/schema.rs: ElementDefinition. -/
structure ElementDefinition where
  position : Nat
  element_reference : String
  name : String
  usage : ElementUsage
  data_type : DataType
  min_length : Option Nat
  max_length : Option Nat
  valid_codes : Option (List String)
  format : Option String
deriving DecidableEq, Repr

/-- validation/schema.rs: ElementDefinition::validate_date_format. -/
def validateDateFormat (value fmt : String) : Bool :=
  if fmt = "YYYYMMDD" then utf8Len value = 8 && value.data.all isAsciiDigit
  else if fmt = "YYMMDD" then utf8Len value = 6 && value.data.all isAsciiDigit
  else if fmt = "CCYYMMDD" then utf8Len value = 8 && value.data.all isAsciiDigit
  else true

/-- The length findings of validate_value. -/
def lengthFindings (d : ElementDefinition) (value : String) : List Finding :=
  (match d.min_length with
   | some minLen =>
     if utf8Len value < minLen then [.tooShort d.element_reference (utf8Len value) minLen] else []
   | none => []) ++
  (match d.max_length with
   | some maxLen =>
     if utf8Len value > maxLen then [.tooLong d.element_reference (utf8Len value) maxLen] else []
   | none => [])

/-- The data-type findings of validate_value (AN, ID, TM, B have no
format check there). -/
def typeFindings (d : ElementDefinition) (value : String) : List Finding :=
  match d.data_type with
  | .n => if !(value.data.all isAsciiDigit) then [.mustBeNumeric d.element_reference] else []
  | .r => if !(rustF64Ok value) then [.mustBeDecimal d.element_reference] else []
  | .dt =>
    match d.format with
    | some fmt =>
      if !(validateDateFormat value fmt) then [.badDateFormat d.element_reference fmt] else []
    | none => []
  | _ => []

/-- The code findings of validate_value. -/
def codeFindings (d : ElementDefinition) (value : String) : List Finding :=
  match d.valid_codes with
  | some codes =>
    if !(codes.contains value) then [.invalidCode d.element_reference value codes] else []
  | none => []

/-- validation/schema.rs: ElementDefinition::validate_value: pushes
length, data-type and code findings into one vector, in that order,
without early return. -/
def validateValue (d : ElementDefinition) (value : String) : List Finding :=
  lengthFindings d value ++ typeFindings d value ++ codeFindings d value

end Schema

/-! ## Schema engine (models/schema_engine.rs) -/

/-- schema_engine.rs: SegmentRequirement. -/
inductive SegmentRequirement where
  | mandatory
  | optional
  | conditional (cond : String)
deriving DecidableEq, Repr

/-- schema_engine.rs: DependencyType. -/
inductive DependencyType where
  | mustFollow
  | mustPrecede
  | mutuallyExclusive
  | requiredIf
deriving DecidableEq, Repr

/-- schema_engine.rs: SegmentDependency. -/
structure SegmentDependency where
  depends_on : String
  dependency_type : DependencyType
  condition : Option String
deriving DecidableEq, Repr

/-- schema_engine.rs: ValidationAction. -/
inductive ValidationAction where
  | error (s : String)
  | warning (s : String)
  | info (s : String)
  | transform (s : String)
deriving DecidableEq, Repr

/-- schema_engine.rs: ContextRule. -/
structure ContextRule where
  rule_id : String
  description : String
  condition : String
  action : ValidationAction
deriving DecidableEq, Repr

/-- schema_engine.rs: SegmentSchema. -/
structure SegmentSchema where
  segment_id : String
  name : String
  requirement : SegmentRequirement
  max_use : Option Nat
  hierarchy_level : Nat
  dependencies : List SegmentDependency
  context_rules : List ContextRule
deriving DecidableEq, Repr

/-- schema_engine.rs: CustomizationType. -/
inductive CustomizationType where
  | makeMandatory
  | makeOptional
  | extendValidCodes (codes : List String)
  | restrictValidCodes (codes : List String)
  | changeLengthConstraints (min max : Option Nat)
deriving DecidableEq, Repr

/-- schema_engine.rs: SchemaCustomization. -/
structure SchemaCustomization where
  segment_id : String
  element_position : Option Nat
  customization_type : CustomizationType
  description : String
deriving DecidableEq, Repr

/-- schema_engine.rs: TradingPartnerAgreement. -/
structure TradingPartnerAgreement where
  partner_id : String
  agreement_name : String
  customizations : List SchemaCustomization
deriving DecidableEq, Repr

/-- schema_engine.rs: TransactionSetSchema. -/
structure TransactionSetSchema where
  transaction_type : String
  version : X12Version
  name : String
  description : String
  segments : List SegmentSchema
  trading_partner_agreements : List TradingPartnerAgreement
deriving DecidableEq, Repr

/-- schema_engine.rs: ValidationResultType. -/
inductive ValidationResultType where
  | error
  | warning
  | info
deriving DecidableEq, Repr

/-- Messages pushed by validate_transaction_structure, one constructor
per format! call site (original format strings quoted). -/
inductive Msg where
  /-- "Segment \x7b\x7d exceeds maximum usage of \x7b\x7d at position \x7b\x7d" -/
  | exceedsMaxUse (segId : String) (maxUse : Nat) (pos1 : Nat)
  /-- "Segment \x7b\x7d appears to move backwards in hierarchy at position \x7b\x7d" -/
  | backwardsHierarchy (segId : String) (pos1 : Nat)
  /-- "Segment \x7b\x7d requires \x7b\x7d to appear before it" -/
  | mustFollowMissing (segId : String) (dep : String)
  /-- "Unknown segment \x7b\x7d at position \x7b\x7d" -/
  | unknownSegment (segId : String) (pos1 : Nat)
  /-- "Missing mandatory segment \x7b\x7d" -/
  | missingMandatory (segId : String)
deriving DecidableEq, Repr

/-- schema_engine.rs: ValidationResult. -/
structure ValidationResult where
  result_type : ValidationResultType
  message : Msg
  segment_position : Option Nat
  element_position : Option Nat
deriving DecidableEq, Repr

/-- The diagnostics one dependency contributes at the given position:
MustFollow scans the ids before the position; RequiredIf and the
remaining kinds fall into no-op match arms in the Rust code. -/
def depDiagnostics (all : List String) (pos : Nat) (segId : String)
    (dep : SegmentDependency) : List ValidationResult :=
  match dep.dependency_type with
  | .mustFollow =>
    if (all.take pos).any (fun s => s = dep.depends_on) then []
    else [⟨.error, .mustFollowMissing segId dep.depends_on, some pos, none⟩]
  | _ => []

/-- The positional scan of validate_transaction_structure: occurrence
counts, max-use errors, hierarchy warnings, dependency checks and
unknown-segment warnings, in source order.  The counts map and the
running maximum hierarchy level are threaded exactly as the mutable
variables of the Rust loop (both stay untouched on unknown segments). -/
def scanAux (schema : TransactionSetSchema) (all : List String) :
    Nat → (String → Nat) → Nat → List String → List ValidationResult
  | _, _, _, [] => []
  | pos, counts, curH, segId :: rest =>
    match schema.segments.find? (fun s => s.segment_id = segId) with
    | some ss =>
      let counts2 : String → Nat := fun k => if k = segId then counts segId + 1 else counts k
      let maxErr :=
        match ss.max_use with
        | some maxUse =>
          if counts2 segId > maxUse then
            [⟨.error, .exceedsMaxUse segId maxUse (pos + 1), some pos, none⟩]
          else []
        | none => []
      let hierWarn :=
        if ss.hierarchy_level < curH then
          [⟨.warning, .backwardsHierarchy segId (pos + 1), some pos, none⟩]
        else []
      let depErrs := ss.dependencies.foldr (fun dep acc => depDiagnostics all pos segId dep ++ acc) []
      maxErr ++ hierWarn ++ depErrs ++ scanAux schema all (pos + 1) counts2 ss.hierarchy_level rest
    | none =>
      ⟨.warning, .unknownSegment segId (pos + 1), some pos, none⟩ ::
        scanAux schema all (pos + 1) counts curH rest

/-- The post-scan pass of validate_transaction_structure: one error per
catalog entry that is Mandatory and whose id occurs nowhere (the two
nested Rust conditions combined into one boolean conjunction). -/
def missingMandatoryResults (schema : TransactionSetSchema) (segments : List String) :
    List ValidationResult :=
  schema.segments.foldr
    (fun ss acc =>
      (if ss.requirement == .mandatory && !segments.contains ss.segment_id then
        [⟨.error, .missingMandatory ss.segment_id, none, none⟩]
      else []) ++ acc) []

/-- schema_engine.rs: the body of validate_transaction_structure after the
schema lookup. -/
def validateStructureWith (schema : TransactionSetSchema) (segments : List String) :
    List ValidationResult :=
  scanAux schema segments 0 (fun _ => 0) 0 segments ++ missingMandatoryResults schema segments

/-- schema_engine.rs: create_850_schema. -/
def create850Schema (version : X12Version) : TransactionSetSchema where
  transaction_type := "850"
  version := version
  name := "Purchase Order"
  description := "This X12 Transaction Set contains the format and establishes the data contents of the Purchase Order Transaction Set (850) for use within the context of an Electronic Data Interchange (EDI) environment."
  segments :=
    [ { segment_id := "ST", name := "Transaction Set Header",
        requirement := .mandatory, max_use := some 1, hierarchy_level := 0,
        dependencies := [], context_rules := [] },
      { segment_id := "BEG", name := "Beginning Segment for Purchase Order",
        requirement := .mandatory, max_use := some 1, hierarchy_level := 0,
        dependencies := [⟨"ST", .mustFollow, none⟩], context_rules := [] },
      { segment_id := "CUR", name := "Currency",
        requirement := .optional, max_use := some 1, hierarchy_level := 0,
        dependencies := [],
        context_rules := [⟨"CUR_01_VALIDATION", "Currency code must be valid ISO 4217",
                           "CUR01 is present", .error "Invalid currency code"⟩] },
      { segment_id := "REF", name := "Reference Identification",
        requirement := .optional, max_use := none, hierarchy_level := 0,
        dependencies := [], context_rules := [] },
      { segment_id := "PER", name := "Administrative Communications Contact",
        requirement := .optional, max_use := some 3, hierarchy_level := 0,
        dependencies := [], context_rules := [] },
      { segment_id := "DTM", name := "Date/Time Reference",
        requirement := .optional, max_use := some 10, hierarchy_level := 0,
        dependencies := [], context_rules := [] },
      { segment_id := "N1", name := "Name",
        requirement := .optional, max_use := some 200, hierarchy_level := 1,
        dependencies := [], context_rules := [] },
      { segment_id := "N2", name := "Additional Name Information",
        requirement := .optional, max_use := some 2, hierarchy_level := 1,
        dependencies := [⟨"N1", .requiredIf, some "N1 segment is present"⟩],
        context_rules := [] },
      { segment_id := "N3", name := "Address Information",
        requirement := .optional, max_use := some 2, hierarchy_level := 1,
        dependencies := [⟨"N1", .requiredIf, some "N1 segment is present"⟩],
        context_rules := [] },
      { segment_id := "N4", name := "Geographic Location",
        requirement := .optional, max_use := some 1, hierarchy_level := 1,
        dependencies := [⟨"N1", .requiredIf, some "N1 segment is present"⟩],
        context_rules := [] },
      { segment_id := "PO1", name := "Baseline Item Data",
        requirement := .mandatory, max_use := some 100000, hierarchy_level := 1,
        dependencies := [],
        context_rules := [⟨"PO1_QUANTITY_PRICE", "Either quantity or price must be specified",
                           "PO102 or PO104 must be present", .error "Missing quantity or price"⟩] },
      { segment_id := "CUR", name := "Currency",
        requirement := .optional, max_use := some 1, hierarchy_level := 1,
        dependencies := [⟨"PO1", .requiredIf, some "PO1 segment is present"⟩],
        context_rules := [] },
      { segment_id := "PID", name := "Product/Item Description",
        requirement := .optional, max_use := some 1000, hierarchy_level := 1,
        dependencies := [⟨"PO1", .requiredIf, some "PO1 segment is present"⟩],
        context_rules := [] },
      { segment_id := "CTT", name := "Transaction Totals",
        requirement := .optional, max_use := some 1, hierarchy_level := 2,
        dependencies := [],
        context_rules := [⟨"CTT_LINE_COUNT", "Line count must match actual PO1 segments",
                           "CTT01 is present", .error "Line count mismatch"⟩] },
      { segment_id := "SE", name := "Transaction Set Trailer",
        requirement := .mandatory, max_use := some 1, hierarchy_level := 2,
        dependencies := [], context_rules := [] } ]
  trading_partner_agreements := []

/-- schema_engine.rs: create_810_schema (placeholder, empty segment list). -/
def create810Schema (version : X12Version) : TransactionSetSchema :=
  ⟨"810", version, "Invoice", "Invoice transaction set for billing information", [], []⟩

/-- schema_engine.rs: create_997_schema (placeholder). -/
def create997Schema (version : X12Version) : TransactionSetSchema :=
  ⟨"997", version, "Functional Acknowledgment", "Functional acknowledgment for EDI transactions", [], []⟩

/-- schema_engine.rs: create_856_schema (placeholder). -/
def create856Schema (version : X12Version) : TransactionSetSchema :=
  ⟨"856", version, "Advance Ship Notice", "Advance ship notice for shipment information", [], []⟩

/-- schema_engine.rs: create_860_schema (placeholder). -/
def create860Schema (version : X12Version) : TransactionSetSchema :=
  ⟨"860", version, "Purchase Order Change Request - Buyer Initiated", "Purchase order change request initiated by buyer", [], []⟩

/-- schema_engine.rs: SchemaEngine::get_transaction_schema for the engine
built by SchemaEngine::new: each of the five transaction types is
registered for the three versions with the corresponding create function
(distinct keys, so the HashMap lookup is a case analysis). -/
def getTransactionSchema (t : String) (v : X12Version) : Option TransactionSetSchema :=
  if t = "850" then some (create850Schema v)
  else if t = "810" then some (create810Schema v)
  else if t = "997" then some (create997Schema v)
  else if t = "856" then some (create856Schema v)
  else if t = "860" then some (create860Schema v)
  else none

/-- schema_engine.rs: SchemaEngine::validate_transaction_structure (the
lookup plus validateStructureWith). -/
def validateTransactionStructure (t : String) (v : X12Version) (segments : List String) :
    Except EdiError (List ValidationResult) :=
  match getTransactionSchema t v with
  | none => .error (.validationErrorStr "Unknown transaction type")
  | some schema => .ok (validateStructureWith schema segments)

/-! ## 850 transaction segments (segments/control.rs, common.rs,
purchase_order.rs) and PurchaseOrder850 (transactions/purchase_order_850.rs) -/

/-- control.rs: StSegment. -/
structure StSegment where
  transaction_set_identifier_code : String
  transaction_set_control_number : String
  implementation_convention_reference : Option String
deriving DecidableEq, Repr

/-- control.rs: StSegment::parse_segment. -/
def StSegment.parse (seg : Segment) : Except EdiError StSegment :=
  if seg.id ≠ "ST" then .error (.invalidSegmentFormat ("Expected ST, got " ++ seg.id))
  else if seg.elements.length < 2 then
    .error (.invalidSegmentFormat "ST segment requires at least 2 elements")
  else .ok ⟨seg.elements.getD 0 "", seg.elements.getD 1 "", seg.elements.get? 2⟩

/-- control.rs: StSegment::validate. -/
def StSegment.validate (s : StSegment) : Except EdiError Unit :=
  if (rustTrim s.transaction_set_control_number).isEmpty then
    .error (.validationError .stCtrlEmpty)
  else .ok ()

/-- purchase_order_850.rs: SeSegment. -/
structure SeSegment where
  number_of_included_segments : String
  transaction_set_control_number : String
deriving DecidableEq, Repr

/-- purchase_order_850.rs: SeSegment::parse_segment. -/
def SeSegment.parse (seg : Segment) : Except EdiError SeSegment :=
  if seg.id ≠ "SE" then .error (.invalidSegmentFormat ("Expected SE, got " ++ seg.id))
  else if seg.elements.length < 2 then
    .error (.invalidSegmentFormat "SE segment requires 2 elements")
  else .ok ⟨seg.elements.getD 0 "", seg.elements.getD 1 ""⟩

/-- purchase_order_850.rs: SeSegment::validate. -/
def SeSegment.validate (s : SeSegment) : Except EdiError Unit :=
  if (rustTrim s.transaction_set_control_number).isEmpty then
    .error (.validationError .seCtrlEmpty)
  else .ok ()

/-- purchase_order.rs: BegSegment. -/
structure BegSegment where
  transaction_set_purpose_code : String
  purchase_order_type_code : String
  purchase_order_number : String
  release_number : Option String
  date : String
  contract_number : Option String
  acknowledgment_type : Option String
  invoice_type_code : Option String
  contract_type_code : Option String
  purchase_category : Option String
  security_level_code : Option String
deriving DecidableEq, Repr

/-- purchase_order.rs: BegSegment::parse_segment. -/
def BegSegment.parse (seg : Segment) : Except EdiError BegSegment :=
  if seg.id ≠ "BEG" then .error (.invalidSegmentFormat ("Expected BEG, got " ++ seg.id))
  else if seg.elements.length < 5 then
    .error (.invalidSegmentFormat "BEG segment requires at least 5 elements")
  else .ok ⟨seg.elements.getD 0 "", seg.elements.getD 1 "", seg.elements.getD 2 "",
            seg.elements.get? 3, seg.elements.getD 4 "", seg.elements.get? 5,
            seg.elements.get? 6, seg.elements.get? 7, seg.elements.get? 8,
            seg.elements.get? 9, seg.elements.get? 10⟩

/-- purchase_order.rs: BegSegment::validate. -/
def BegSegment.validate (s : BegSegment) : Except EdiError Unit :=
  if (rustTrim s.purchase_order_number).isEmpty then
    .error (.validationError .poNumberEmpty)
  else .ok ()

/-- common.rs: N1Segment. -/
structure N1Segment where
  entity_identifier_code : String
  name : Option String
  identification_code_qualifier : Option String
  identification_code : Option String
  entity_relationship_code : Option String
  entity_identifier_code_2 : Option String
deriving DecidableEq, Repr

/-- common.rs: N1Segment::parse_segment. -/
def N1Segment.parse (seg : Segment) : Except EdiError N1Segment :=
  if seg.id ≠ "N1" then .error (.invalidSegmentFormat ("Expected N1, got " ++ seg.id))
  else if seg.elements.isEmpty then
    .error (.invalidSegmentFormat "N1 segment requires at least 1 element")
  else .ok ⟨seg.elements.getD 0 "", seg.elements.get? 1, seg.elements.get? 2,
            seg.elements.get? 3, seg.elements.get? 4, seg.elements.get? 5⟩

/-- common.rs: N1Segment::validate. -/
def N1Segment.validate (s : N1Segment) : Except EdiError Unit :=
  if (rustTrim s.entity_identifier_code).isEmpty then
    .error (.validationError .n1EntityEmpty)
  else .ok ()

/-- purchase_order.rs: Po1Segment (all fields optional). -/
structure Po1Segment where
  assigned_identification : Option String
  quantity_ordered : Option String
  unit_or_basis_for_measurement_code : Option String
  unit_price : Option String
  basis_of_unit_price_code : Option String
  product_id_qualifier_1 : Option String
  product_id_1 : Option String
  product_id_qualifier_2 : Option String
  product_id_2 : Option String
  product_id_qualifier_3 : Option String
  product_id_3 : Option String
  product_id_qualifier_4 : Option String
  product_id_4 : Option String
  product_id_qualifier_5 : Option String
  product_id_5 : Option String
deriving DecidableEq, Repr

/-- purchase_order.rs: Po1Segment::parse_segment. -/
def Po1Segment.parse (seg : Segment) : Except EdiError Po1Segment :=
  if seg.id ≠ "PO1" then .error (.invalidSegmentFormat ("Expected PO1, got " ++ seg.id))
  else .ok ⟨seg.elements.get? 0, seg.elements.get? 1, seg.elements.get? 2,
            seg.elements.get? 3, seg.elements.get? 4, seg.elements.get? 5,
            seg.elements.get? 6, seg.elements.get? 7, seg.elements.get? 8,
            seg.elements.get? 9, seg.elements.get? 10, seg.elements.get? 11,
            seg.elements.get? 12, seg.elements.get? 13, seg.elements.get? 14⟩

/-- purchase_order.rs: Po1Segment::validate (always passes). -/
def Po1Segment.validate (_ : Po1Segment) : Except EdiError Unit := .ok ()

/-- purchase_order.rs: CttSegment. -/
structure CttSegment where
  number_of_line_items : String
  hash_total : Option String
  weight : Option String
  unit_or_basis_for_measurement_code : Option String
  volume : Option String
  unit_or_basis_for_measurement_code_2 : Option String
  description : Option String
deriving DecidableEq, Repr

/-- purchase_order.rs: CttSegment::parse_segment. -/
def CttSegment.parse (seg : Segment) : Except EdiError CttSegment :=
  if seg.id ≠ "CTT" then .error (.invalidSegmentFormat ("Expected CTT, got " ++ seg.id))
  else if seg.elements.isEmpty then
    .error (.invalidSegmentFormat "CTT segment requires at least 1 element")
  else .ok ⟨seg.elements.getD 0 "", seg.elements.get? 1, seg.elements.get? 2,
            seg.elements.get? 3, seg.elements.get? 4, seg.elements.get? 5,
            seg.elements.get? 6⟩

/-- purchase_order.rs: CttSegment::validate: the count must parse as u32
and be nonzero. -/
def CttSegment.validate (s : CttSegment) : Except EdiError Unit :=
  match rustParseU32 s.number_of_line_items with
  | some count =>
    if count = 0 then .error (.validationError .cttZeroCount) else .ok ()
  | none => .error (.validationError .cttBadCountFormat)

/-- purchase_order_850.rs: PurchaseOrder850. -/
structure PurchaseOrder850 where
  header : StSegment
  beginning_segment : BegSegment
  parties : List N1Segment
  line_items : List Po1Segment
  totals : Option CttSegment
  trailer : Option SeSegment
deriving DecidableEq, Repr

/-- The accumulator of PurchaseOrder850::parse_transaction. -/
structure Po850Acc where
  header : Option StSegment
  beginning_segment : Option BegSegment
  parties : List N1Segment
  line_items : List Po1Segment
  totals : Option CttSegment
  trailer : Option SeSegment
deriving DecidableEq, Repr

/-- One iteration of the segment loop of parse_transaction. -/
def po850Step (acc : Po850Acc) (seg : Segment) : Except EdiError Po850Acc := do
  if seg.id = "ST" then do
    let v ← StSegment.parse seg
    pure { acc with header := some v }
  else if seg.id = "BEG" then do
    let v ← BegSegment.parse seg
    pure { acc with beginning_segment := some v }
  else if seg.id = "N1" then do
    let v ← N1Segment.parse seg
    pure { acc with parties := acc.parties ++ [v] }
  else if seg.id = "PO1" then do
    let v ← Po1Segment.parse seg
    pure { acc with line_items := acc.line_items ++ [v] }
  else if seg.id = "CTT" then do
    let v ← CttSegment.parse seg
    pure { acc with totals := some v }
  else if seg.id = "SE" then do
    let v ← SeSegment.parse seg
    pure { acc with trailer := some v }
  else
    pure acc

/-- purchase_order_850.rs: PurchaseOrder850::parse_transaction. -/
def po850ParseTransaction (t : Transaction) : Except EdiError PurchaseOrder850 := do
  if t.transaction_set_id ≠ "850" then
    throw (EdiError.unsupportedTransactionType t.transaction_set_id) else pure ()
  let acc ← t.segments.foldlM po850Step ⟨none, none, [], [], none, none⟩
  let header ← match acc.header with
    | some h => pure h
    | none => throw (EdiError.missingRequiredSegment "ST")
  let beg ← match acc.beginning_segment with
    | some b => pure b
    | none => throw (EdiError.missingRequiredSegment "BEG")
  pure ⟨header, beg, acc.parties, acc.line_items, acc.totals, acc.trailer⟩

/-- The per-party validation loop of PurchaseOrder850::validate. -/
def validateParties : List N1Segment → Except EdiError Unit
  | [] => .ok ()
  | p :: ps => p.validate >>= fun _ => validateParties ps

/-- The per-line-item validation loop of PurchaseOrder850::validate. -/
def validateLineItems : List Po1Segment → Except EdiError Unit
  | [] => .ok ()
  | i :: is2 => i.validate >>= fun _ => validateLineItems is2

/-- purchase_order_850.rs: PurchaseOrder850::validate. -/
def po850Validate (po : PurchaseOrder850) : Except EdiError Unit := do
  po.header.validate
  po.beginning_segment.validate
  (match po.trailer with
   | some tr => do
     tr.validate
     if po.header.transaction_set_control_number ≠ tr.transaction_set_control_number then
       throw (EdiError.validationError .stSeCtrlMismatch)
     else pure ()
   | none => pure ())
  (match po.totals with
   | some totals => do
     totals.validate
     (match rustParseUsize totals.number_of_line_items with
      | some expected =>
        if expected ≠ po.line_items.length then
          throw (EdiError.validationError (.lineItemCountMismatch expected po.line_items.length))
        else pure ()
      | none => pure ())
   | none => pure ())
  validateParties po.parties
  validateLineItems po.line_items

/-! ## Statement-level helper definitions -/

/-- Total number of segments across all transactions of all functional
groups of an interchange. -/
def totalSegments (ic : InterchangeControl) : Nat :=
  (ic.functional_groups.map fun fg =>
    (fg.transactions.map fun t => t.segments.length).sum).sum

/-- Boolean success test for Except. -/
def exceptIsOk {ε α : Type} : Except ε α → Bool
  | .ok _ => true
  | .error _ => false

/-- A record whose first trimmed element-separated piece is "ST" and that
has at least two further pieces (so the ST branch of the assembly loop
succeeds). -/
def isStRec (q : X12Parser) (r : String) : Bool :=
  match splitElems q r with
  | i :: _ :: _ :: _ => i == "ST"
  | _ => false

/-- A record whose first piece is "SE". -/
def isSeRec (q : X12Parser) (r : String) : Bool :=
  match splitElems q r with
  | i :: _ => i == "SE"
  | [] => false

/-- A record whose first piece is "GS". -/
def isGsRec (q : X12Parser) (r : String) : Bool :=
  match splitElems q r with
  | i :: _ => i == "GS"
  | [] => false

/-- A record whose first piece is "GE". -/
def isGeRec (q : X12Parser) (r : String) : Bool :=
  match splitElems q r with
  | i :: _ => i == "GE"
  | [] => false

/-- A record that falls into the catch-all branch of the assembly loop. -/
def isBodyRec (q : X12Parser) (r : String) : Bool :=
  match splitElems q r with
  | i :: _ => !(i == "GS" || i == "GE" || i == "ST" || i == "SE")
  | [] => false

/-- One transaction of a well-formed document, as raw records. -/
structure TxRecs where
  st : String
  body : List String
  se : String
deriving DecidableEq, Repr

/-- One functional group of a well-formed document, as raw records. -/
structure GroupRecs where
  gs : String
  txs : List TxRecs
  ge : String
deriving DecidableEq, Repr

/-- The record list of one transaction. -/
def TxRecs.recs (t : TxRecs) : List String :=
  t.st :: (t.body ++ [t.se])

/-- The record list of one functional group. -/
def GroupRecs.recs (g : GroupRecs) : List String :=
  g.gs :: ((g.txs.map TxRecs.recs).flatten ++ [g.ge])

/-- The record list of a whole document body (between ISA and IEA). -/
def docRecs (groups : List GroupRecs) : List String :=
  (groups.map GroupRecs.recs).flatten

/-- Well-formed transaction records with respect to the effective parser. -/
def wfTx (q : X12Parser) (t : TxRecs) : Bool :=
  isStRec q t.st && t.body.all (isBodyRec q) && isSeRec q t.se

/-- Well-formed functional-group records. -/
def wfGroup (q : X12Parser) (g : GroupRecs) : Bool :=
  isGsRec q g.gs && g.txs.all (wfTx q) && isGeRec q g.ge

/-- Interchange-level control-number agreement as checked by
X12Parser::validate: ISA element 13 against IEA element 2, trivially true
when either side is absent. -/
def ieaCtrlOk (ic : InterchangeControl) : Bool :=
  match ic.iea_segment with
  | none => true
  | some iea =>
    match ic.isa_segment.elements.get? 12, iea.elements.get? 1 with
    | some isaCtrl, some ieaCtrl => isaCtrl == ieaCtrl
    | _, _ => true

/-- Group-level control-number agreement as checked by X12Parser::validate:
GS element 6 against GE element 2, trivially true when either is absent. -/
def geCtrlOk (fg : FunctionalGroup) : Bool :=
  match fg.ge_segment with
  | none => true
  | some ge =>
    match fg.gs_segment.elements.get? 5, ge.elements.get? 1 with
    | some gsCtrl, some geCtrl => gsCtrl == geCtrl
    | _, _ => true

/-- The envelope identity checks of X12Parser::validate: segment ids at
every level plus the minimum ISA element count. -/
def envelopeIdsOk (ic : InterchangeControl) : Bool :=
  ic.isa_segment.id == "ISA" &&
  15 ≤ ic.isa_segment.elements.length &&
  (match ic.iea_segment with
   | none => true
   | some iea => iea.id == "IEA") &&
  ic.functional_groups.all fun fg =>
    fg.gs_segment.id == "GS" &&
    (match fg.ge_segment with
     | none => true
     | some ge => ge.id == "GE") &&
    fg.transactions.all fun t =>
      (match t.segments.head? with
       | none => true
       | some s => s.id == "ST") &&
      (match t.segments.getLast? with
       | none => true
       | some s => s.id == "SE")

/-- The dependency kinds the scan acts on (MustFollow has a real check,
RequiredIf a deliberate no-op arm of its own). -/
def keepDep (d : SegmentDependency) : Bool :=
  d.dependency_type == .mustFollow || d.dependency_type == .requiredIf

/-- Removal of the ignored dependency kinds from one catalog entry. -/
def stripSegDeps (ss : SegmentSchema) : SegmentSchema :=
  { ss with dependencies := ss.dependencies.filter keepDep }

/-- Removal of the dependency kinds the scan never acts on. -/
def stripIgnoredDeps (schema : TransactionSetSchema) : TransactionSetSchema :=
  { schema with segments := schema.segments.map stripSegDeps }

/-- A diagnostic whose message is a missing-mandatory-segment message. -/
def isMissingAny (r : ValidationResult) : Bool :=
  match r.message with
  | .missingMandatory _ => true
  | _ => false

/-! ## Concrete instances used by individual claims -/

/-- A document whose interchange header declares the segment separator
as the exclamation mark and that is delimited by it throughout; it
contains no occurrence of the default tilde separator. -/
def c1input : String :=
  "ISA*1*2*3*4*5*6*7*8*9*10*11*12*13*14*!GS*X!IEA*1"

/-- A fully well-formed tilde-delimited document: ISA, one group with one
three-segment transaction, GE, IEA (7 records in total). -/
def c2input : String :=
  "ISA*1*2*3*4*5*6*7*8*9*10*11*12*13*14*x*>~GS*a*b*c*d*e*f*g*h~ST*850*0001~PO1*1*2~SE*4*0001~GE*1*f~IEA*1*1~"

/-- The record groups of c2input. -/
def c2groups : List GroupRecs :=
  [⟨"GS*a*b*c*d*e*f*g*h", [⟨"ST*850*0001", ["PO1*1*2"], "SE*4*0001"⟩], "GE*1*f"⟩]

/-- The effective parser resolved from the header of c2input (the
discovered segment separator is the character x of ISA element 15, which
differs from the tilde default, so the discovered triple is installed). -/
def c2q : X12Parser := X12Parser.withDelimiters '*' 'x' '>'

/-- An interchange whose envelope ids and interchange/group control
numbers all agree but whose only transaction carries control number 0001
in ST and 9999 in SE. -/
def c3ic : InterchangeControl :=
  { isa_segment := ⟨"ISA", ["00", "a", "00", "b", "ZZ", "S", "ZZ", "R", "d", "t", "U", "00401", "7", "0", "T", ">"]⟩,
    iea_segment := some ⟨"IEA", ["1", "7"]⟩,
    functional_groups :=
      [ { gs_segment := ⟨"GS", ["PO", "S", "R", "20230101", "1253", "5", "X", "004010"]⟩,
          ge_segment := some ⟨"GE", ["1", "5"]⟩,
          transactions :=
            [ Transaction.new
                [⟨"ST", ["850", "0001"]⟩, ⟨"BEG", ["00", "SA", "P1", "", "20230101"]⟩,
                 ⟨"SE", ["3", "9999"]⟩]
                "850" "0001" ] } ] }

/-- An interchange identical in shape to c3ic whose ST and SE control
numbers agree. -/
def c3icW : InterchangeControl :=
  { isa_segment := ⟨"ISA", ["00", "a", "00", "b", "ZZ", "S", "ZZ", "R", "d", "t", "U", "00401", "7", "0", "T", ">"]⟩,
    iea_segment := some ⟨"IEA", ["1", "7"]⟩,
    functional_groups :=
      [ { gs_segment := ⟨"GS", ["PO", "S", "R", "20230101", "1253", "5", "X", "004010"]⟩,
          ge_segment := some ⟨"GE", ["1", "5"]⟩,
          transactions :=
            [ Transaction.new
                [⟨"ST", ["850", "0001"]⟩, ⟨"BEG", ["00", "SA", "P1", "", "20230101"]⟩,
                 ⟨"SE", ["3", "0001"]⟩]
                "850" "0001" ] } ] }

/-- An element definition (models/segment_definition.rs shape) whose
declared minimum length, numeric data type and code set are all violated
by the single-letter value a. -/
def c4def : ElementDefinition :=
  ⟨999, "Test Element", .n, some 2, some 3, .mandatory, "test", some ["00"]⟩

/-- An implementation-guide element definition (validation/schema.rs
shape) with the same three constraints. -/
def c4schemaDef : Schema.ElementDefinition :=
  ⟨1, "999", "Test Element", .required, .n, some 2, some 3, some ["00"], none⟩

/-- A schema whose only segment carries a MustPrecede dependency. -/
def c5schemaPre : TransactionSetSchema :=
  ⟨"X01", .v4010, "test", "test",
   [⟨"AAA", "a", .optional, some 5, 0, [⟨"BBB", .mustPrecede, none⟩], []⟩], []⟩

/-- A schema whose two segments are declared mutually exclusive. -/
def c5schemaMut : TransactionSetSchema :=
  ⟨"X02", .v4010, "test", "test",
   [⟨"AAA", "a", .optional, some 5, 0, [⟨"BBB", .mutuallyExclusive, none⟩], []⟩,
    ⟨"BBB", "b", .optional, some 5, 0, [], []⟩], []⟩

/-- The same shape with a MustFollow dependency instead. -/
def c5schemaFol : TransactionSetSchema :=
  ⟨"X03", .v4010, "test", "test",
   [⟨"AAA", "a", .optional, some 5, 0, [⟨"BBB", .mustFollow, none⟩], []⟩], []⟩

/-- A purchase order with one line item, a CTT declaring two and an
otherwise consistent envelope. -/
def c8po : PurchaseOrder850 :=
  { header := ⟨"850", "0001", none⟩,
    beginning_segment := ⟨"00", "SA", "PO7", none, "20240101", none, none, none, none, none, none⟩,
    parties := [],
    line_items := [⟨none, some "2", none, none, none, none, none, none,
                    none, none, none, none, none, none, none⟩],
    totals := some ⟨"2", none, none, none, none, none, none⟩,
    trailer := some ⟨"5", "0001"⟩ }

/-- A document whose IEA record sits immediately after the header, before
the functional group. -/
def c9input : String :=
  "ISA*a1*a2*a3*a4*a5*a6*a7*a8*a9*a10*a11*a12*a13*a14*x*>~IEA*9*9~GS*a*b*c*d*e*f*g*h~ST*850*0001~SE*2*0001~GE*1*f~"

/-- The effective parser resolved from the header of c9input. -/
def c9q : X12Parser := X12Parser.withDelimiters '*' 'x' '>'

/-- The interchange produced from c9input. -/
def c9ic : InterchangeControl :=
  (x12Parse X12Parser.default c9input).toOption.getD ⟨⟨"", []⟩, none, []⟩

/-- The interchange produced from c2input. -/
def c2ic : InterchangeControl :=
  (x12Parse X12Parser.default c2input).toOption.getD ⟨⟨"", []⟩, none, []⟩

/-! ## Basic lemmas -/

theorem splitCharAux_ne_nil (sep : Char) (l acc : List Char) : splitCharAux sep l acc ≠ [] := by
  induction l generalizing acc with
  | nil => simp [splitCharAux]
  | cons c cs ih =>
    simp only [splitCharAux]
    split
    · simp
    · exact ih _

theorem splitChar_ne_nil (sep : Char) (s : String) : splitChar sep s ≠ [] := by
  unfold splitChar
  intro h
  exact splitCharAux_ne_nil sep s.data [] (List.map_eq_nil_iff.mp h)

theorem splitElems_ne_nil (p : X12Parser) (line : String) : splitElems p line ≠ [] := by
  unfold splitElems
  intro h
  exact splitChar_ne_nil p.element_separator line (List.map_eq_nil_iff.mp h)

theorem parseSegmentX12_eq_ok (p : X12Parser) (line : String) :
    parseSegmentX12 p line = .ok (parseSegTotal p line) := by
  unfold parseSegmentX12 parseSegTotal
  cases h : splitElems p line with
  | nil => exact absurd h (splitElems_ne_nil p line)
  | cons e0 rest => rfl

theorem runAsm_append (q : X12Parser) (st : AsmState) (l1 l2 : List String) :
    runAsm q st (l1 ++ l2) = runAsm q st l1 >>= fun st2 => runAsm q st2 l2 := by
  induction l1 generalizing st with
  | nil => simp [runAsm, Bind.bind, Except.bind]
  | cons r rs ih =>
    simp only [List.cons_append, runAsm, Bind.bind, Except.bind]
    cases asmStep q st r with
    | error e => rfl
    | ok st2 => exact ih st2

theorem validateVSList_cons_error (e : ValidatedElement) (es : List ValidatedElement)
    (err : EdiError) (h : validateVE e = .error err) :
    validateVSList (e :: es) = .error err := by
  simp [validateVSList, h, Bind.bind, Except.bind]

/-! ## Claim C7 -/

/-- C7: for any BEG segment whose first element is the value 99 (outside
the 353 code set) and whose remaining elements each pass element
validation, parse_and_validate returns exactly one Element Validator
error, and it carries element ID 353, position 1 and the value 99. -/
theorem beg_purpose_code_99_single_error (v : X12Version) (seg : Segment)
    (hid : seg.id = "BEG")
    (h0 : seg.elements.get? 0 = some "99")
    (hrest : validateVSList (buildValidatedElems begDefinition seg).tail = .ok ()) :
    parseAndValidate v seg =
      .error (.validationError (.elemInvalidCode "Transaction Set Purpose Code" 353 1 "99"
        ["00", "01", "04", "05"])) := by
  obtain ⟨sid, elems⟩ := seg
  simp only at hid h0 hrest
  subst hid
  match elems, h0 with
  | e0 :: tl, h0 =>
    have he : e0 = "99" := by simpa using h0
    subst he
    have hstep : parseAndValidate v ⟨"BEG", "99" :: tl⟩ =
        (validateVSList (buildValidatedElems begDefinition ⟨"BEG", "99" :: tl⟩) >>= fun _ =>
          pure ⟨"BEG", buildValidatedElems begDefinition ⟨"BEG", "99" :: tl⟩⟩) := rfl
    have hb : buildValidatedElems begDefinition ⟨"BEG", "99" :: tl⟩ =
        ⟨begElem353, some "99", 1⟩ ::
          [⟨begElem92, tl.get? 0, 2⟩, ⟨begElem324, tl.get? 1, 3⟩,
           ⟨begElem328, tl.get? 2, 4⟩, ⟨begElem373, tl.get? 3, 5⟩] := rfl
    have hv : validateVE ⟨begElem353, some "99", 1⟩ =
        .error (.validationError (.elemInvalidCode "Transaction Set Purpose Code" 353 1 "99"
          ["00", "01", "04", "05"])) := by decide
    rw [hstep, hb, validateVSList_cons_error _ _ _ hv]
    rfl

/-- C7 witness: Scenario B in the concrete, the BEG segment of the
repository unit test with purpose code 99. -/
theorem beg_purpose_code_99_single_error_witness :
    parseAndValidate .v4010 ⟨"BEG", ["99", "SA", "PO12345", "", "20240101"]⟩ =
      .error (.validationError (.elemInvalidCode "Transaction Set Purpose Code" 353 1 "99"
        ["00", "01", "04", "05"])) :=
  beg_purpose_code_99_single_error .v4010 ⟨"BEG", ["99", "SA", "PO12345", "", "20240101"]⟩
    rfl rfl (by decide)

/-! ## Claim C4 -/

/-- C4 counterexample: a value violating the declared minimum length, the
numeric data type and the code set at once makes ValidatedElement::validate
return only the length failure; no data-type or code finding is produced,
so the Element Validator of models/validated_element.rs does stop at the
first failing rule category. -/
theorem element_validator_first_failure_only :
    (utf8Len "a" < 2 ∧ "a".data.all isAsciiDigit = false ∧ (["00"].contains "a") = false) ∧
    validateVE ⟨c4def, some "a", 1⟩ =
      .error (.validationError (.elemTooShort "Test Element" 999 1 "a" 2)) := by
  constructor
  · exact ⟨by decide, by decide, by decide⟩
  · decide

/-- C4 amended: the accumulating element validator is
ElementDefinition::validate_value of validation/schema.rs: its findings
list contains the length, data-type and code findings independently (each
present exactly when its own rule is violated), while
ValidatedElement::validate of models/validated_element.rs returns only the
first failing category.  The theorem states the independent accumulation
for validate_value. -/
theorem validate_value_accumulates (d : Schema.ElementDefinition) (value : String) :
    (∀ minLen, d.min_length = some minLen → utf8Len value < minLen →
       Schema.Finding.tooShort d.element_reference (utf8Len value) minLen ∈
         Schema.validateValue d value) ∧
    (∀ maxLen, d.max_length = some maxLen → utf8Len value > maxLen →
       Schema.Finding.tooLong d.element_reference (utf8Len value) maxLen ∈
         Schema.validateValue d value) ∧
    (d.data_type = .n → value.data.all isAsciiDigit = false →
       Schema.Finding.mustBeNumeric d.element_reference ∈ Schema.validateValue d value) ∧
    (d.data_type = .r → rustF64Ok value = false →
       Schema.Finding.mustBeDecimal d.element_reference ∈ Schema.validateValue d value) ∧
    (∀ codes, d.valid_codes = some codes → codes.contains value = false →
       Schema.Finding.invalidCode d.element_reference value codes ∈
         Schema.validateValue d value) := by
  obtain ⟨pos, ref, nm, usage, dty, minL, maxL, vcodes, fmt⟩ := d
  refine ⟨?_, ?_, ?_, ?_, ?_⟩
  · intro minLen hmin hlt
    simp only at hmin
    subst hmin
    simp [Schema.validateValue, Schema.lengthFindings, hlt]
  · intro maxLen hmax hgt
    simp only at hmax
    subst hmax
    simp [Schema.validateValue, Schema.lengthFindings, hgt]
  · intro htype hbad
    simp only at htype
    subst htype
    simp [Schema.validateValue, Schema.typeFindings, hbad]
  · intro htype hbad
    simp only at htype
    subst htype
    simp [Schema.validateValue, Schema.typeFindings, hbad]
  · intro codes hcodes hnc
    simp only at hcodes
    subst hcodes
    have hnm : value ∉ codes := by simpa using hnc
    simp [Schema.validateValue, Schema.codeFindings, hnc, hnm]

/-- C4 amended witness: a value violating minimum length, numeric type
and code set at once yields all three findings in the validate_value
list. -/
theorem validate_value_accumulates_witness :
    Schema.Finding.tooShort "999" 1 2 ∈ Schema.validateValue c4schemaDef "a" ∧
    Schema.Finding.mustBeNumeric "999" ∈ Schema.validateValue c4schemaDef "a" ∧
    Schema.Finding.invalidCode "999" "a" ["00"] ∈ Schema.validateValue c4schemaDef "a" :=
  ⟨(validate_value_accumulates c4schemaDef "a").1 2 rfl (by decide),
   (validate_value_accumulates c4schemaDef "a").2.2.1 rfl (by decide),
   (validate_value_accumulates c4schemaDef "a").2.2.2.2 ["00"] rfl (by decide)⟩

/-! ## Claim C5 -/

theorem depDiagnostics_ignored (all : List String) (pos : Nat) (segId : String)
    (dep : SegmentDependency) (h : keepDep dep = false) :
    depDiagnostics all pos segId dep = [] := by
  obtain ⟨dOn, dty, dcond⟩ := dep
  cases dty <;> simp_all [keepDep, depDiagnostics]

theorem foldrDeps_filter (all : List String) (pos : Nat) (segId : String)
    (deps : List SegmentDependency) :
    (deps.filter keepDep).foldr (fun dep acc => depDiagnostics all pos segId dep ++ acc) [] =
      deps.foldr (fun dep acc => depDiagnostics all pos segId dep ++ acc) [] := by
  induction deps with
  | nil => rfl
  | cons d ds ih =>
    by_cases h : keepDep d = true
    · simp [List.filter_cons, h, ih]
    · have h2 : keepDep d = false := by simpa using h
      simp [List.filter_cons, h2, ih, depDiagnostics_ignored all pos segId d h2]

theorem find?_stripSegDeps (l : List SegmentSchema) (segId : String) :
    (l.map stripSegDeps).find? (fun s => s.segment_id = segId) =
      (l.find? (fun s => s.segment_id = segId)).map stripSegDeps := by
  induction l with
  | nil => rfl
  | cons s ls ih =>
    by_cases hs : s.segment_id = segId
    · have hb : (decide ((stripSegDeps s).segment_id = segId)) = true := by
        simp [stripSegDeps, hs]
      simp [List.find?_cons, hb, hs]
    · have hb : (decide ((stripSegDeps s).segment_id = segId)) = false := by
        simp [stripSegDeps, hs]
      simp [List.find?_cons, hb, hs, ih]

theorem scanAux_strip (schema : TransactionSetSchema) (all : List String) :
    ∀ (rest : List String) (pos : Nat) (counts : String → Nat) (curH : Nat),
      scanAux (stripIgnoredDeps schema) all pos counts curH rest =
        scanAux schema all pos counts curH rest := by
  intro rest
  induction rest with
  | nil => intro pos counts curH; rfl
  | cons segId rs ih =>
    intro pos counts curH
    simp only [stripIgnoredDeps] at ih
    simp only [scanAux, stripIgnoredDeps]
    rw [find?_stripSegDeps]
    cases hf : schema.segments.find? (fun s => s.segment_id = segId) with
    | none =>
      simp only [Option.map_none']
      rw [ih]
    | some ss =>
      simp only [Option.map_some']
      dsimp only [stripSegDeps]
      rw [foldrDeps_filter, ih]

theorem missingMandatory_strip (schema : TransactionSetSchema) (segs : List String) :
    missingMandatoryResults (stripIgnoredDeps schema) segs =
      missingMandatoryResults schema segs := by
  unfold missingMandatoryResults stripIgnoredDeps
  rw [List.foldr_map]
  rfl

/-- C5 counterexample: against a schema whose only entry carries a
MustPrecede dependency on an absent target, the scan emits no diagnostic
at all (and likewise when two mutually exclusive segments both occur),
while the structurally analogous MustFollow case does produce an Error:
line 621 of schema_engine.rs discards both kinds in a catch-all arm. -/
theorem must_precede_exclusive_emit_nothing :
    validateStructureWith c5schemaPre ["AAA"] = [] ∧
    validateStructureWith c5schemaMut ["AAA", "BBB"] = [] ∧
    validateStructureWith c5schemaFol ["AAA"] =
      [⟨.error, .mustFollowMissing "AAA" "BBB", some 0, none⟩] := by
  exact ⟨rfl, rfl, rfl⟩

/-- C5 amended: MustPrecede and MutuallyExclusive dependencies are not
checked at all: deleting every dependency of those kinds from a schema
leaves the diagnostics of validate_transaction_structure unchanged on
every input, and no schema registered in the engine contains such a
dependency in the first place. -/
theorem ignored_dependency_kinds :
    (∀ (schema : TransactionSetSchema) (segments : List String),
       validateStructureWith (stripIgnoredDeps schema) segments =
         validateStructureWith schema segments) ∧
    (∀ (t : String) (v : X12Version) (schema : TransactionSetSchema),
       getTransactionSchema t v = some schema →
       (schema.segments.all fun ss => ss.dependencies.all keepDep) = true) := by
  constructor
  · intro schema segments
    unfold validateStructureWith
    rw [scanAux_strip, missingMandatory_strip]
  · intro t v schema h
    unfold getTransactionSchema at h
    split_ifs at h <;> cases h <;> cases v <;> decide

/-- C5 amended witness: the invariance at the MustPrecede schema, and the
registered 850 catalog containing only acted-on dependency kinds. -/
theorem ignored_dependency_kinds_witness :
    validateStructureWith (stripIgnoredDeps c5schemaPre) ["AAA"] =
      validateStructureWith c5schemaPre ["AAA"] ∧
    ((create850Schema .v4010).segments.all fun ss => ss.dependencies.all keepDep) = true :=
  ⟨ignored_dependency_kinds.1 c5schemaPre ["AAA"],
   ignored_dependency_kinds.2 "850" .v4010 (create850Schema .v4010) rfl⟩

/-! ## Claim C6 -/

theorem depDiagnostics_not_missing (all : List String) (pos : Nat) (segId : String)
    (dep : SegmentDependency) :
    ∀ r ∈ depDiagnostics all pos segId dep, isMissingAny r = false := by
  obtain ⟨dOn, dty, dcond⟩ := dep
  intro r hr
  cases dty <;> simp only [depDiagnostics] at hr
  case mustFollow =>
    simp at hr
    rcases hr with ⟨-, rfl⟩
    rfl
  all_goals simp at hr

theorem foldrDeps_not_missing (all : List String) (pos : Nat) (segId : String)
    (deps : List SegmentDependency) :
    ∀ r ∈ deps.foldr (fun dep acc => depDiagnostics all pos segId dep ++ acc) [],
      isMissingAny r = false := by
  induction deps with
  | nil => simp
  | cons d ds ih =>
    intro r hr
    simp only [List.foldr_cons, List.mem_append] at hr
    cases hr with
    | inl h => exact depDiagnostics_not_missing all pos segId d r h
    | inr h => exact ih r h

theorem scanAux_not_missing (schema : TransactionSetSchema) (all : List String) :
    ∀ (rest : List String) (pos : Nat) (counts : String → Nat) (curH : Nat),
      ∀ r ∈ scanAux schema all pos counts curH rest, isMissingAny r = false := by
  intro rest
  induction rest with
  | nil => intro pos counts curH r hr; simp [scanAux] at hr
  | cons segId rs ih =>
    intro pos counts curH r hr
    simp only [scanAux] at hr
    cases hf : schema.segments.find? (fun s => s.segment_id = segId) with
    | none =>
      rw [hf] at hr
      simp only [List.mem_cons] at hr
      cases hr with
      | inl h => subst h; rfl
      | inr h => exact ih _ _ _ r h
    | some ss =>
      rw [hf] at hr
      simp only [List.mem_append] at hr
      rcases hr with ((h1 | h2) | h3) | h4
      · rcases hmu : ss.max_use with _ | maxUse
        · rw [hmu] at h1
          simp at h1
        · rw [hmu] at h1
          simp at h1
          rcases h1 with ⟨-, rfl⟩
          rfl
      · simp at h2
        rcases h2 with ⟨-, rfl⟩
        rfl
      · exact foldrDeps_not_missing all pos segId ss.dependencies r h3
      · exact ih _ _ _ r h4

/-- The number of missing-mandatory errors naming a given id produced by
the post-scan pass. -/
theorem missingMandatory_countP (schema : TransactionSetSchema) (segs : List String)
    (sid : String) :
    (missingMandatoryResults schema segs).countP
        (fun r => r.message == Msg.missingMandatory sid) =
      if segs.contains sid then 0
      else schema.segments.countP
        (fun ss => ss.segment_id == sid && ss.requirement == SegmentRequirement.mandatory) := by
  unfold missingMandatoryResults
  induction schema.segments with
  | nil => simp
  | cons ss ls ih =>
    simp only [List.foldr_cons]
    rw [List.countP_append, ih, List.countP_cons]
    by_cases hid : ss.segment_id = sid
    · subst hid
      by_cases hc : ss.segment_id ∈ segs
      · simp [hc]
      · by_cases hm : ss.requirement = SegmentRequirement.mandatory
        · simp [hc, hm, Nat.add_comm]
        · simp [hc, hm]
    · by_cases hb : ss.requirement = SegmentRequirement.mandatory ∧ ss.segment_id ∉ segs
      · by_cases hc : sid ∈ segs <;> simp [hb, hc, hid]
      · by_cases hc : sid ∈ segs <;> simp [hb, hc, hid]

/-- C6: for every schema and transaction, the diagnostics of
validate_transaction_structure contain, for each segment id, exactly one
missing-mandatory Error per Mandatory catalog entry with that id when the
id occurs nowhere in the transaction (and none when it occurs); the scan
phase never produces such a message.  In particular an 850 transaction
lacking BEG but otherwise compliant yields exactly the single Error
naming BEG and no other diagnostic. -/
theorem missing_mandatory_segment_errors :
    (∀ (schema : TransactionSetSchema) (segments : List String) (sid : String),
       (validateStructureWith schema segments).countP
           (fun r => r.message == Msg.missingMandatory sid) =
         if segments.contains sid then 0
         else schema.segments.countP
           (fun ss => ss.segment_id == sid && ss.requirement == SegmentRequirement.mandatory)) ∧
    validateStructureWith (create850Schema .v4010) ["ST", "PO1", "SE"] =
      [⟨.error, .missingMandatory "BEG", none, none⟩] := by
  constructor
  · intro schema segments sid
    unfold validateStructureWith
    rw [List.countP_append]
    have hscan : (scanAux schema segments 0 (fun _ => 0) 0 segments).countP
        (fun r => r.message == Msg.missingMandatory sid) = 0 := by
      rw [List.countP_eq_zero]
      intro r hr hq
      have h0 := scanAux_not_missing schema segments segments 0 (fun _ => 0) 0 r hr
      have hmsg : r.message = Msg.missingMandatory sid := by simpa using hq
      simp [isMissingAny, hmsg] at h0
    rw [hscan, missingMandatory_countP, Nat.zero_add]
  · rfl

/-! ## Claim C8 -/

/-- C8: for every parsed 850 purchase order whose envelope segments are
themselves valid (header, beginning segment, and trailer checks pass) and
that carries a CTT totals segment whose declared line-item count parses
as an integer different from the number of PO1 line items, validate
returns the business-rule error reporting the declared count against the
actual count. -/
theorem ctt_line_count_mismatch (po : PurchaseOrder850) (expected : Nat) (ctt : CttSegment)
    (hH : po.header.validate = .ok ())
    (hB : po.beginning_segment.validate = .ok ())
    (hT : ∀ tr, po.trailer = some tr →
       tr.validate = .ok () ∧
       po.header.transaction_set_control_number = tr.transaction_set_control_number)
    (hC : po.totals = some ctt)
    (hCv : ctt.validate = .ok ())
    (hN : rustParseUsize ctt.number_of_line_items = some expected)
    (hNe : expected ≠ po.line_items.length) :
    po850Validate po =
      .error (.validationError (.lineItemCountMismatch expected po.line_items.length)) := by
  unfold po850Validate
  cases htr : po.trailer with
  | none =>
    simp [hH, hB, htr, hC, hCv, hN, hNe, Bind.bind, Except.bind, pure, Except.pure]
  | some tr =>
    obtain ⟨htv, hteq⟩ := hT tr htr
    simp [hH, hB, htr, htv, hteq, hC, hCv, hN, hNe, Bind.bind, Except.bind, pure, Except.pure]

/-- C8 witness: Scenario D in the concrete, a CTT declaring two line
items over a single PO1 loop. -/
theorem ctt_line_count_mismatch_witness :
    po850Validate c8po = .error (.validationError (.lineItemCountMismatch 2 1)) :=
  ctt_line_count_mismatch c8po 2 ⟨"2", none, none, none, none, none, none⟩
    rfl rfl
    (fun tr htr => by
      have h2 := Option.some.inj htr
      exact h2 ▸ ⟨rfl, rfl⟩)
    rfl rfl rfl (by decide)

/-! ## Claim C10 -/

/-- C10: for every segment whose id has a registered definition,
parse_and_validate builds exactly one ValidatedElement per definition
element, at 1-based positions 1..n in definition order, each carrying the
input element at its 0-based index; and input elements beyond the
definition length are ignored: appending extra elements changes neither
the outcome nor the produced segment, so they never yield a diagnostic or
an error. -/
theorem parse_and_validate_shape :
    (∀ (v : X12Version) (seg : Segment) (d : SegmentDefinition) (vs : ValidatedSegment),
       registryGetDefinition v seg.id = some d →
       parseAndValidate v seg = .ok vs →
       vs.segment_id = seg.id ∧
       vs.elements.map (fun e => e.position) = List.range' 1 d.elements.length ∧
       vs.elements.map (fun e => e.definition) = d.elements ∧
       vs.elements.map (fun e => e.value) =
         (List.range d.elements.length).map (fun i => seg.elements.get? i)) ∧
    (∀ (v : X12Version) (seg : Segment) (d : SegmentDefinition) (extra : List String),
       registryGetDefinition v seg.id = some d →
       d.elements.length ≤ seg.elements.length →
       parseAndValidate v ⟨seg.id, seg.elements ++ extra⟩ = parseAndValidate v seg) := by
  constructor
  · intro v seg d vs hreg hok
    have hvs : vs = ⟨seg.id, buildValidatedElems d seg⟩ := by
      simp only [parseAndValidate, hreg, Bind.bind, Except.bind] at hok
      cases hval : ValidatedSegment.validate ⟨seg.id, buildValidatedElems d seg⟩ with
      | error e =>
        rw [hval] at hok
        exact absurd hok (by simp)
      | ok u =>
        rw [hval] at hok
        simp only [pure, Except.pure, Except.ok.injEq] at hok
        exact hok.symm
    subst hvs
    refine ⟨rfl, ?_, ?_, ?_⟩
    · unfold buildValidatedElems
      rw [List.map_map]
      have h1 : ((fun e : ValidatedElement => e.position) ∘ fun pe : Nat × ElementDefinition =>
          (⟨pe.2, seg.elements.get? pe.1, pe.1 + 1⟩ : ValidatedElement)) =
          ((fun i => i + 1) ∘ Prod.fst) := rfl
      rw [h1, ← List.map_map, List.enum_map_fst, List.range'_eq_map_range]
      exact List.map_congr_left fun i _ => Nat.add_comm i 1
    · unfold buildValidatedElems
      rw [List.map_map]
      have h1 : ((fun e : ValidatedElement => e.definition) ∘ fun pe : Nat × ElementDefinition =>
          (⟨pe.2, seg.elements.get? pe.1, pe.1 + 1⟩ : ValidatedElement)) =
          (Prod.snd : Nat × ElementDefinition → ElementDefinition) := rfl
      rw [h1, List.enum_map_snd]
    · unfold buildValidatedElems
      rw [List.map_map]
      have h1 : ((fun e : ValidatedElement => e.value) ∘ fun pe : Nat × ElementDefinition =>
          (⟨pe.2, seg.elements.get? pe.1, pe.1 + 1⟩ : ValidatedElement)) =
          ((fun i => seg.elements.get? i) ∘ Prod.fst) := rfl
      rw [h1, ← List.map_map, List.enum_map_fst]
  · intro v seg d extra hreg hlen
    have hb : buildValidatedElems d ⟨seg.id, seg.elements ++ extra⟩ = buildValidatedElems d seg := by
      unfold buildValidatedElems
      apply List.map_congr_left
      intro pe hpe
      have hq := List.mem_enum_iff_getElem?.mp hpe
      have hlt : pe.1 < d.elements.length := (List.getElem?_eq_some.mp hq).1
      have hg : (seg.elements ++ extra).get? pe.1 = seg.elements.get? pe.1 := by
        rw [List.get?_eq_getElem?, List.get?_eq_getElem?,
          List.getElem?_append_left (Nat.lt_of_lt_of_le hlt hlen)]
      simp only [hg]
    simp only [parseAndValidate, hreg, hb]

/-- C10 witness: a BEG segment with two extra trailing elements validates
identically to the five-element one, and the successful result carries
positions 1..5, the BEG definition elements and the input values. -/
theorem parse_and_validate_shape_witness :
    parseAndValidate .v4010 ⟨"BEG", ["00", "SA", "PO12345", "", "20240101", "X", "Y"]⟩ =
      parseAndValidate .v4010 ⟨"BEG", ["00", "SA", "PO12345", "", "20240101"]⟩ ∧
    ∃ vs, parseAndValidate .v4010 ⟨"BEG", ["00", "SA", "PO12345", "", "20240101"]⟩ = .ok vs ∧
      vs.elements.map (fun e => e.position) = [1, 2, 3, 4, 5] ∧
      vs.elements.map (fun e => e.definition) = begDefinition.elements := by
  constructor
  · exact parse_and_validate_shape.2 .v4010 ⟨"BEG", ["00", "SA", "PO12345", "", "20240101"]⟩
      begDefinition ["X", "Y"] rfl (by decide)
  · refine ⟨⟨"BEG", buildValidatedElems begDefinition
      ⟨"BEG", ["00", "SA", "PO12345", "", "20240101"]⟩⟩, rfl, ?_, ?_⟩
    · have h := (parse_and_validate_shape.1 .v4010
        ⟨"BEG", ["00", "SA", "PO12345", "", "20240101"]⟩ begDefinition
        ⟨"BEG", buildValidatedElems begDefinition
          ⟨"BEG", ["00", "SA", "PO12345", "", "20240101"]⟩⟩ rfl rfl).2.1
      simpa using h
    · exact (parse_and_validate_shape.1 .v4010
        ⟨"BEG", ["00", "SA", "PO12345", "", "20240101"]⟩ begDefinition
        ⟨"BEG", buildValidatedElems begDefinition
          ⟨"BEG", ["00", "SA", "PO12345", "", "20240101"]⟩⟩ rfl rfl).2.2.1

/-! ## Characterization of x12Parse -/

theorem findIea_eq (q : X12Parser) (records : List String) :
    findIea q records =
      .ok ((records.find? (fun s => rustStartsWith "IEA" s)).map (parseSegTotal q)) := by
  unfold findIea
  cases hf : records.find? (fun s => rustStartsWith "IEA" s) with
  | none => rfl
  | some r =>
    simp [parseSegmentX12_eq_ok, Bind.bind, Except.bind, pure, Except.pure]

theorem x12Parse_eq (p : X12Parser) (input : String) (rec0 : String) (rest : List String)
    (isa : Segment) (q : X12Parser) (stE : AsmState)
    (hrecs : nonBlankRecords p.segment_separator input = rec0 :: rest)
    (hisa : parseIsaSegment p rec0 = .ok isa)
    (hq : resolveDelims p rec0 = .ok q)
    (hrun : runAsm q ⟨[], none, none⟩ rest = .ok stE) :
    x12Parse p input = .ok ⟨isa,
      ((rec0 :: rest).find? (fun r => rustStartsWith "IEA" r)).map (parseSegTotal q),
      finalizeAsm stE⟩ := by
  simp only [x12Parse, hrecs, hisa, hq, hrun, findIea_eq, Bind.bind, Except.bind,
    pure, Except.pure]

theorem x12Parse_ok_components (p : X12Parser) (input : String) (ic : InterchangeControl)
    (rec0 : String) (rest : List String)
    (hrecs : nonBlankRecords p.segment_separator input = rec0 :: rest)
    (hok : x12Parse p input = .ok ic) :
    ∃ isa q stE, parseIsaSegment p rec0 = .ok isa ∧ resolveDelims p rec0 = .ok q ∧
      runAsm q ⟨[], none, none⟩ rest = .ok stE ∧
      ic = ⟨isa, ((rec0 :: rest).find? (fun r => rustStartsWith "IEA" r)).map (parseSegTotal q),
            finalizeAsm stE⟩ := by
  simp only [x12Parse, hrecs, Bind.bind, Except.bind] at hok
  cases hisa : parseIsaSegment p rec0 with
  | error e => rw [hisa] at hok; simp at hok
  | ok isa =>
    rw [hisa] at hok
    cases hq2 : resolveDelims p rec0 with
    | error e => rw [hq2] at hok; simp at hok
    | ok q =>
      rw [hq2] at hok
      dsimp only at hok
      cases hrun : runAsm q ⟨[], none, none⟩ rest with
      | error e => rw [hrun] at hok; simp at hok
      | ok stE =>
        rw [hrun, findIea_eq] at hok
        dsimp only at hok
        refine ⟨isa, q, stE, rfl, rfl, hrun, ?_⟩
        simp only [pure, Except.pure, Except.ok.injEq] at hok
        exact hok.symm

/-! ## Claim C9 -/

/-- C9: when parse succeeds, the trailer field equals the first record of
the whole non-blank record list (header included, at any position)
starting with IEA, parsed with the effective parser; it is none exactly
when no record starts with IEA. -/
theorem iea_trailer_selection (p : X12Parser) (input : String) (ic : InterchangeControl)
    (rec0 : String) (rest : List String) (q : X12Parser)
    (hok : x12Parse p input = .ok ic)
    (hrecs : nonBlankRecords p.segment_separator input = rec0 :: rest)
    (hq : resolveDelims p rec0 = .ok q) :
    ic.iea_segment =
      ((rec0 :: rest).find? (fun r => rustStartsWith "IEA" r)).map (parseSegTotal q) := by
  obtain ⟨isa, q2, stE, hisa2, hq2, hrun2, hic⟩ :=
    x12Parse_ok_components p input ic rec0 rest hrecs hok
  have hqq : q2 = q := by
    rw [hq] at hq2
    exact (Except.ok.inj hq2).symm
  subst hqq
  rw [hic]

/-- C9 witness: from the concrete c9input, whose IEA record sits between
the header and the functional group (not last), the trailer field is that
record, parsed. -/
theorem iea_trailer_selection_witness :
    c9ic.iea_segment = some ⟨"IEA", ["9", "9"]⟩ := by
  have h := iea_trailer_selection X12Parser.default c9input c9ic
    "ISA*a1*a2*a3*a4*a5*a6*a7*a8*a9*a10*a11*a12*a13*a14*x*>"
    ["IEA*9*9", "GS*a*b*c*d*e*f*g*h", "ST*850*0001", "SE*2*0001", "GE*1*f"] c9q
    (by rfl) (by rfl) (by rfl)
  rw [h]
  rfl

/-! ## Claim C1 -/

theorem splitCharAux_not_mem (sep : Char) (l : List Char) :
    ∀ acc, sep ∉ l → splitCharAux sep l acc = [acc.reverse ++ l] := by
  induction l with
  | nil => intro acc h; simp [splitCharAux]
  | cons c cs ih =>
    intro acc h
    have hc : ¬ c = sep := fun hcc => h (hcc ▸ List.mem_cons_self c cs)
    simp only [splitCharAux, if_neg hc]
    rw [ih _ (fun hm => h (List.mem_cons_of_mem _ hm))]
    simp

theorem splitChar_single (sep : Char) (s : String) (h : sep ∉ s.data) :
    splitChar sep s = [s] := by
  unfold splitChar
  rw [splitCharAux_not_mem sep s.data [] h]
  simp

/-- C1 counterexample: for the exclamation-delimited c1input the
discovered segment separator differs from the configured tilde, so under
the claim the remainder would be re-tokenized on it, yielding a GS record
and an IEA record and hence one functional group and a trailer; the
parser instead keeps the tilde record partition, in which the whole input
is one record, and returns an interchange with no functional groups and
no trailer. -/
theorem retokenize_on_discovered_separator_fails :
    extractDelimitersFromIsa c1input = .ok ('*', '!', 'X') ∧
    ('!' : Char) ≠ '~' ∧
    (nonBlankRecords '~' c1input).drop 1 = [] ∧
    (nonBlankRecords '!' c1input).drop 1 = ["GS*X", "IEA*1"] ∧
    (x12Parse X12Parser.default c1input).toOption.map
        (fun ic => (ic.functional_groups.length, ic.iea_segment)) = some (0, none) ∧
    ([] : List String) ≠ ["GS*X", "IEA*1"] := by
  exact ⟨rfl, by decide, rfl, rfl, rfl, by decide⟩

/-- C1 amended: the discovered separators never re-partition the
document: the record list that parse assembles is always the split of the
whole input on the configured default segment separator (the discovered
separators only affect element splitting of those records).  In
particular, whenever the input contains no occurrence of the configured
segment separator, the whole document after the header collapses into the
single header record and parse returns an interchange with no functional
groups, whatever separator the header declares. -/
theorem no_default_separator_no_groups (p : X12Parser) (input : String)
    (ic : InterchangeControl)
    (hno : p.segment_separator ∉ input.data)
    (hok : x12Parse p input = .ok ic) :
    ic.functional_groups = [] := by
  have hsplit : splitChar p.segment_separator input = [input] :=
    splitChar_single p.segment_separator input hno
  by_cases hb : (rustTrim input).isEmpty = true
  · have hrec : nonBlankRecords p.segment_separator input = [] := by
      unfold nonBlankRecords
      rw [hsplit]
      simp [hb]
    unfold x12Parse at hok
    rw [hrec] at hok
    simp at hok
  · have hrec : nonBlankRecords p.segment_separator input = [input] := by
      unfold nonBlankRecords
      rw [hsplit]
      simp [hb]
    obtain ⟨isa, q, stE, hisa2, hq2, hrun2, hic⟩ :=
      x12Parse_ok_components p input ic input [] hrec hok
    have hst : stE = ⟨[], none, none⟩ := (Except.ok.inj hrun2).symm
    rw [hic, hst]
    rfl

/-- C1 amended witness: the concrete exclamation-delimited document
parses with zero functional groups. -/
theorem no_default_separator_no_groups_witness :
    ∃ ic, x12Parse X12Parser.default c1input = .ok ic ∧ ic.functional_groups = [] := by
  refine ⟨(x12Parse X12Parser.default c1input).toOption.getD ⟨⟨"", []⟩, none, []⟩, rfl, ?_⟩
  exact no_default_separator_no_groups X12Parser.default c1input _ (by decide) rfl

/-! ## Claim C3 -/

theorem validateTxList_ok (ts : List Transaction)
    (h : ∀ t ∈ ts,
      (match t.segments.head? with | none => true | some s => s.id == "ST") = true ∧
      (match t.segments.getLast? with | none => true | some s => s.id == "SE") = true) :
    validateTxList ts = .ok () := by
  induction ts with
  | nil => rfl
  | cons t ts ih =>
    obtain ⟨h1, h2⟩ := h t (List.mem_cons_self t ts)
    have ih2 := ih fun t2 ht2 => h t2 (List.mem_cons_of_mem _ ht2)
    cases hh : t.segments.head? with
    | none =>
      cases hl : t.segments.getLast? with
      | none => simp [validateTxList, hh, hl, Bind.bind, Except.bind, pure, Except.pure, ih2]
      | some s =>
        rw [hl] at h2
        have hs : s.id = "SE" := by simpa using h2
        simp [validateTxList, hh, hl, hs, Bind.bind, Except.bind, pure, Except.pure, ih2]
    | some s =>
      rw [hh] at h1
      have hs : s.id = "ST" := by simpa using h1
      cases hl : t.segments.getLast? with
      | none => simp [validateTxList, hh, hl, hs, Bind.bind, Except.bind, pure, Except.pure, ih2]
      | some s2 =>
        rw [hl] at h2
        have hs2 : s2.id = "SE" := by simpa using h2
        simp [validateTxList, hh, hl, hs, hs2, Bind.bind, Except.bind, pure, Except.pure, ih2]

theorem validateFgList_iff (fgs : List FunctionalGroup)
    (h : ∀ fg ∈ fgs,
      (fg.gs_segment.id == "GS") = true ∧
      (match fg.ge_segment with | none => true | some ge => ge.id == "GE") = true ∧
      (∀ t ∈ fg.transactions,
        (match t.segments.head? with | none => true | some s => s.id == "ST") = true ∧
        (match t.segments.getLast? with | none => true | some s => s.id == "SE") = true)) :
    validateFgList fgs = .ok () ↔ ∀ fg ∈ fgs, geCtrlOk fg = true := by
  induction fgs with
  | nil => simp [validateFgList]
  | cons fg fgs ih =>
    obtain ⟨hgs, hge, htx⟩ := h fg (List.mem_cons_self fg fgs)
    have ih2 := ih fun g hg => h g (List.mem_cons_of_mem _ hg)
    have hgs2 : fg.gs_segment.id = "GS" := by simpa using hgs
    have htxok : validateTxList fg.transactions = .ok () := validateTxList_ok _ htx
    rw [List.forall_mem_cons]
    cases hgeseg : fg.ge_segment with
    | none =>
      have hok : geCtrlOk fg = true := by simp [geCtrlOk, hgeseg]
      simp [validateFgList, hgeseg, hgs2, htxok, Bind.bind, Except.bind, pure,
        Except.pure, ih2, hok]
    | some ge =>
      have hge2 : ge.id = "GE" := by rw [hgeseg] at hge; simpa using hge
      cases h5 : fg.gs_segment.elements[5]? with
      | none =>
        have hok : geCtrlOk fg = true := by simp [geCtrlOk, hgeseg, h5]
        simp [validateFgList, hgeseg, hgs2, hge2, h5, htxok, Bind.bind, Except.bind,
          pure, Except.pure, ih2, hok]
      | some gsCtrl =>
        cases h1 : ge.elements[1]? with
        | none =>
          have hok : geCtrlOk fg = true := by simp [geCtrlOk, hgeseg, h5, h1]
          simp [validateFgList, hgeseg, hgs2, hge2, h5, h1, htxok, Bind.bind,
            Except.bind, pure, Except.pure, ih2, hok]
        | some geCtrl =>
          by_cases heq : gsCtrl = geCtrl
          · have hok : geCtrlOk fg = true := by simp [geCtrlOk, hgeseg, h5, h1, heq]
            simp [validateFgList, hgeseg, hgs2, hge2, h5, h1, heq, htxok, Bind.bind,
              Except.bind, pure, Except.pure, ih2, hok]
          · have hok : geCtrlOk fg = false := by simp [geCtrlOk, hgeseg, h5, h1, heq]
            simp [validateFgList, hgeseg, hgs2, hge2, h5, h1, heq, htxok, Bind.bind,
              Except.bind, pure, Except.pure, throw, throwThe, MonadExceptOf.throw, hok]

/-- C3 counterexample: an interchange whose envelope ids, interchange
control numbers and group control numbers all agree, but whose single
transaction carries control number 0001 in its ST header and 9999 in its
SE trailer (both present), still validates successfully: the validate method of X12Parser
never compares the transaction-level control numbers, only the
ST and SE segment ids. -/
theorem transaction_ctrl_numbers_not_checked :
    x12Validate c3ic = .ok () ∧
    (c3ic.functional_groups.head?.bind fun fg =>
      fg.transactions.head?.map fun t =>
        ((t.segments.head?.map fun s => s.elements.get? 1),
         (t.segments.getLast?.map fun s => s.elements.get? 1))) =
      some (some (some "0001"), some (some "9999")) ∧
    some "0001" ≠ some "9999" := by
  exact ⟨rfl, rfl, by decide⟩

/-- C3 amended: for an assembled interchange on which every envelope
segment-id check passes (ISA element count included), validate succeeds
iff the trailer control number equals the header control number at the
interchange level (ISA13 against IEA02) and at the group level (GS06
against GE02) whenever both are present; the transaction level is not
checked for control numbers, and the first inequality yields the single
returned error. -/
theorem structural_validator_ctrl_iff (ic : InterchangeControl)
    (hids : envelopeIdsOk ic = true) :
    x12Validate ic = .ok () ↔
      (ieaCtrlOk ic = true ∧ ∀ fg ∈ ic.functional_groups, geCtrlOk fg = true) := by
  unfold envelopeIdsOk at hids
  simp only [Bool.and_eq_true, List.all_eq_true] at hids
  obtain ⟨⟨⟨hisaId, hisaLen⟩, hieaId⟩, hgroups⟩ := hids
  have hisaId2 : ic.isa_segment.id = "ISA" := by simpa using hisaId
  have hisaLen2 : ¬ (ic.isa_segment.elements.length < 15) := by
    have := of_decide_eq_true hisaLen
    omega
  have hfgs : validateFgList ic.functional_groups = .ok () ↔
      ∀ fg ∈ ic.functional_groups, geCtrlOk fg = true := by
    apply validateFgList_iff
    intro fg hfg
    have hmem := hgroups fg hfg
    simp only [Bool.and_eq_true, List.all_eq_true] at hmem
    obtain ⟨⟨hg1, hg2⟩, hg3⟩ := hmem
    refine ⟨hg1, hg2, ?_⟩
    intro t ht
    have hmt := hg3 t ht
    simp only [Bool.and_eq_true] at hmt
    exact hmt
  cases hiea : ic.iea_segment with
  | none =>
    have hok : ieaCtrlOk ic = true := by simp [ieaCtrlOk, hiea]
    simp [x12Validate, hiea, hisaId2, hisaLen2, hfgs, Bind.bind, Except.bind,
      pure, Except.pure, hok]
  | some iea =>
    have hieaId2 : iea.id = "IEA" := by
      rw [hiea] at hieaId
      simpa using hieaId
    cases h12 : ic.isa_segment.elements[12]? with
    | none =>
      have hok : ieaCtrlOk ic = true := by simp [ieaCtrlOk, hiea, h12]
      simp [x12Validate, hiea, hisaId2, hisaLen2, hieaId2, h12, hfgs, Bind.bind,
        Except.bind, pure, Except.pure, hok]
    | some a =>
      cases h1 : iea.elements[1]? with
      | none =>
        have hok : ieaCtrlOk ic = true := by simp [ieaCtrlOk, hiea, h12, h1]
        simp [x12Validate, hiea, hisaId2, hisaLen2, hieaId2, h12, h1, hfgs,
          Bind.bind, Except.bind, pure, Except.pure, hok]
      | some b =>
        by_cases heq : a = b
        · have hok : ieaCtrlOk ic = true := by simp [ieaCtrlOk, hiea, h12, h1, heq]
          simp [x12Validate, hiea, hisaId2, hisaLen2, hieaId2, h12, h1, heq, hfgs,
            Bind.bind, Except.bind, pure, Except.pure, hok]
        · have hok : ieaCtrlOk ic = false := by simp [ieaCtrlOk, hiea, h12, h1, heq]
          simp [x12Validate, hiea, hisaId2, hisaLen2, hieaId2, h12, h1, heq, hfgs,
            Bind.bind, Except.bind, pure, Except.pure, throw, throwThe,
            MonadExceptOf.throw, hok]

/-- C3 amended witness: the all-matching interchange validates
successfully via the equivalence. -/
theorem structural_validator_ctrl_iff_witness :
    x12Validate c3icW = .ok () :=
  (structural_validator_ctrl_iff c3icW (by decide)).mpr (by decide)

/-! ## Claim C2: behaviour of the assembly fold on well-formed records -/

theorem isBodyRec_step (q : X12Parser) (r : String) (h : isBodyRec q r = true)
    (fgs : List FunctionalGroup) (fg2 : Option FunctionalGroup) (tx : Transaction) :
    asmStep q ⟨fgs, fg2, some tx⟩ r =
      .ok ⟨fgs, fg2, some { tx with segments := tx.segments ++ [parseSegTotal q r] }⟩ := by
  unfold isBodyRec at h
  cases hsp : splitElems q r with
  | nil => rw [hsp] at h; simp at h
  | cons i rest =>
    rw [hsp] at h
    obtain ⟨⟨⟨hgs, hge⟩, hst⟩, hse⟩ :
        ((¬ i = "GS" ∧ ¬ i = "GE") ∧ ¬ i = "ST") ∧ ¬ i = "SE" := by
      simpa using h
    have hps : parseSegmentX12 q r = .ok ⟨i, rest⟩ := by
      unfold parseSegmentX12; rw [hsp]
    have hpt : parseSegTotal q r = ⟨i, rest⟩ := by
      unfold parseSegTotal; rw [hsp]
    simp [asmStep, hps, hpt, hgs, hge, hst, hse, Bind.bind, Except.bind, pure, Except.pure]

theorem isBodyRec_step_none (q : X12Parser) (r : String) (h : isBodyRec q r = true)
    (fgs : List FunctionalGroup) (fg2 : Option FunctionalGroup) :
    asmStep q ⟨fgs, fg2, none⟩ r = .ok ⟨fgs, fg2, none⟩ := by
  unfold isBodyRec at h
  cases hsp : splitElems q r with
  | nil => rw [hsp] at h; simp at h
  | cons i rest =>
    rw [hsp] at h
    obtain ⟨⟨⟨hgs, hge⟩, hst⟩, hse⟩ :
        ((¬ i = "GS" ∧ ¬ i = "GE") ∧ ¬ i = "ST") ∧ ¬ i = "SE" := by
      simpa using h
    have hps : parseSegmentX12 q r = .ok ⟨i, rest⟩ := by
      unfold parseSegmentX12; rw [hsp]
    simp [asmStep, hps, hgs, hge, hst, hse, Bind.bind, Except.bind, pure, Except.pure]

theorem isStRec_step (q : X12Parser) (r : String) (h : isStRec q r = true)
    (fgs : List FunctionalGroup) (fg2 : Option FunctionalGroup) :
    ∃ tx : Transaction, asmStep q ⟨fgs, fg2, none⟩ r = .ok ⟨fgs, fg2, some tx⟩ ∧
      tx.segments.length = 1 := by
  unfold isStRec at h
  cases hsp : splitElems q r with
  | nil => rw [hsp] at h; simp at h
  | cons i rest =>
    rw [hsp] at h
    cases rest with
    | nil => simp at h
    | cons e1 rest1 =>
      cases rest1 with
      | nil => simp at h
      | cons e2 rest2 =>
        have hi : i = "ST" := by simpa using h
        subst hi
        have hps : parseSegmentX12 q r = .ok ⟨"ST", e1 :: e2 :: rest2⟩ := by
          unfold parseSegmentX12; rw [hsp]
        refine ⟨Transaction.new [⟨"ST", e1 :: e2 :: rest2⟩] e1 e2, ?_, rfl⟩
        simp [asmStep, hps, Bind.bind, Except.bind, pure, Except.pure, Transaction.new]

theorem isSeRec_step (q : X12Parser) (r : String) (h : isSeRec q r = true)
    (fgs : List FunctionalGroup) (fg : FunctionalGroup) (tx : Transaction) :
    ∃ tx2 : Transaction, asmStep q ⟨fgs, some fg, some tx⟩ r =
        .ok ⟨fgs, some { fg with transactions := fg.transactions ++ [tx2] }, none⟩ ∧
      tx2.segments.length = tx.segments.length + 1 := by
  unfold isSeRec at h
  cases hsp : splitElems q r with
  | nil => rw [hsp] at h; simp at h
  | cons i rest =>
    rw [hsp] at h
    have hi : i = "SE" := by simpa using h
    subst hi
    have hps : parseSegmentX12 q r = .ok ⟨"SE", rest⟩ := by
      unfold parseSegmentX12; rw [hsp]
    refine ⟨{ tx with segments := tx.segments ++ [⟨"SE", rest⟩] }, ?_, by simp⟩
    simp [asmStep, hps, Bind.bind, Except.bind, pure, Except.pure]

theorem isGsRec_step (q : X12Parser) (r : String) (h : isGsRec q r = true)
    (fgs : List FunctionalGroup) :
    asmStep q ⟨fgs, none, none⟩ r = .ok ⟨fgs, some ⟨parseSegTotal q r, none, []⟩, none⟩ := by
  unfold isGsRec at h
  cases hsp : splitElems q r with
  | nil => rw [hsp] at h; simp at h
  | cons i rest =>
    rw [hsp] at h
    have hi : i = "GS" := by simpa using h
    subst hi
    have hps : parseSegmentX12 q r = .ok ⟨"GS", rest⟩ := by
      unfold parseSegmentX12; rw [hsp]
    have hpt : parseSegTotal q r = ⟨"GS", rest⟩ := by
      unfold parseSegTotal; rw [hsp]
    simp [asmStep, hps, hpt, Bind.bind, Except.bind, pure, Except.pure]

theorem isGeRec_step (q : X12Parser) (r : String) (h : isGeRec q r = true)
    (fgs : List FunctionalGroup) (fg : FunctionalGroup) :
    asmStep q ⟨fgs, some fg, none⟩ r =
      .ok ⟨fgs ++ [{ fg with ge_segment := some (parseSegTotal q r) }], none, none⟩ := by
  unfold isGeRec at h
  cases hsp : splitElems q r with
  | nil => rw [hsp] at h; simp at h
  | cons i rest =>
    rw [hsp] at h
    have hi : i = "GE" := by simpa using h
    subst hi
    have hps : parseSegmentX12 q r = .ok ⟨"GE", rest⟩ := by
      unfold parseSegmentX12; rw [hsp]
    have hpt : parseSegTotal q r = ⟨"GE", rest⟩ := by
      unfold parseSegTotal; rw [hsp]
    simp [asmStep, hps, hpt, Bind.bind, Except.bind, pure, Except.pure]

theorem runAsm_body (q : X12Parser) :
    ∀ (body : List String), body.all (isBodyRec q) = true →
    ∀ (fgs : List FunctionalGroup) (fg2 : Option FunctionalGroup) (tx : Transaction),
      ∃ tx2, runAsm q ⟨fgs, fg2, some tx⟩ body = .ok ⟨fgs, fg2, some tx2⟩ ∧
        tx2.segments.length = tx.segments.length + body.length := by
  intro body
  induction body with
  | nil => intro _ fgs fg2 tx; exact ⟨tx, rfl, rfl⟩
  | cons r rs ih =>
    intro hb fgs fg2 tx
    simp only [List.all_cons, Bool.and_eq_true] at hb
    obtain ⟨hr, hrs⟩ := hb
    have hstep := isBodyRec_step q r hr fgs fg2 tx
    obtain ⟨tx2, hrun2, hlen2⟩ :=
      ih hrs fgs fg2 { tx with segments := tx.segments ++ [parseSegTotal q r] }
    refine ⟨tx2, ?_, ?_⟩
    · simp only [runAsm, hstep, Bind.bind, Except.bind]
      exact hrun2
    · simp only [List.length_cons]
      simp at hlen2
      omega

theorem runAsm_tx (q : X12Parser) (t : TxRecs) (hw : wfTx q t = true)
    (fgs : List FunctionalGroup) (fg : FunctionalGroup) :
    ∃ tx2, runAsm q ⟨fgs, some fg, none⟩ t.recs =
        .ok ⟨fgs, some { fg with transactions := fg.transactions ++ [tx2] }, none⟩ ∧
      tx2.segments.length = t.body.length + 2 := by
  obtain ⟨⟨hst, hbody⟩, hse⟩ :
      (isStRec q t.st = true ∧ t.body.all (isBodyRec q) = true) ∧ isSeRec q t.se = true := by
    simpa [wfTx, Bool.and_eq_true] using hw
  obtain ⟨tx1, hstep1, hlen1⟩ := isStRec_step q t.st hst fgs (some fg)
  obtain ⟨tx2, hrun2, hlen2⟩ := runAsm_body q t.body hbody fgs (some fg) tx1
  obtain ⟨tx3, hstep3, hlen3⟩ := isSeRec_step q t.se hse fgs fg tx2
  refine ⟨tx3, ?_, by omega⟩
  show runAsm q _ (t.st :: (t.body ++ [t.se])) = _
  simp only [runAsm, hstep1, Bind.bind, Except.bind]
  rw [runAsm_append, hrun2]
  simp only [Bind.bind, Except.bind, runAsm, hstep3]

theorem runAsm_txs (q : X12Parser) :
    ∀ (txs : List TxRecs), txs.all (wfTx q) = true →
    ∀ (fgs : List FunctionalGroup) (fg : FunctionalGroup),
      ∃ newTxs, runAsm q ⟨fgs, some fg, none⟩ (txs.map TxRecs.recs).flatten =
          .ok ⟨fgs, some { fg with transactions := fg.transactions ++ newTxs }, none⟩ ∧
        (newTxs.map fun t => t.segments.length).sum =
          (txs.map fun t => t.body.length + 2).sum ∧
        newTxs.length = txs.length := by
  intro txs
  induction txs with
  | nil =>
    intro _ fgs fg
    refine ⟨[], ?_, rfl, rfl⟩
    simp [runAsm]
  | cons t ts ih =>
    intro hw fgs fg
    simp only [List.all_cons, Bool.and_eq_true] at hw
    obtain ⟨hwt, hwts⟩ := hw
    obtain ⟨tx2, hrun1, hlen1⟩ := runAsm_tx q t hwt fgs fg
    obtain ⟨newTxs, hrun2, hsum2, hlen2⟩ :=
      ih hwts fgs { fg with transactions := fg.transactions ++ [tx2] }
    refine ⟨tx2 :: newTxs, ?_, ?_, by simp [hlen2]⟩
    · rw [List.map_cons, List.flatten_cons, runAsm_append, hrun1]
      simp only [Bind.bind, Except.bind]
      rw [hrun2]
      simp
    · simp only [List.map_cons, List.sum_cons, hsum2, hlen1]

theorem runAsm_group (q : X12Parser) (g : GroupRecs) (hw : wfGroup q g = true)
    (fgs : List FunctionalGroup) :
    ∃ fgNew, runAsm q ⟨fgs, none, none⟩ g.recs = .ok ⟨fgs ++ [fgNew], none, none⟩ ∧
      (fgNew.transactions.map fun t => t.segments.length).sum =
        (g.txs.map fun t => t.body.length + 2).sum ∧
      fgNew.transactions.length = g.txs.length := by
  obtain ⟨⟨hgs, htxs⟩, hge⟩ :
      (isGsRec q g.gs = true ∧ g.txs.all (wfTx q) = true) ∧ isGeRec q g.ge = true := by
    simpa [wfGroup, Bool.and_eq_true] using hw
  have hstep1 := isGsRec_step q g.gs hgs fgs
  obtain ⟨newTxs, hrun2, hsum2, hlen2⟩ :=
    runAsm_txs q g.txs htxs fgs ⟨parseSegTotal q g.gs, none, []⟩
  have hstep3 := isGeRec_step q g.ge hge fgs
    { gs_segment := parseSegTotal q g.gs, ge_segment := none, transactions := [] ++ newTxs }
  refine ⟨{ gs_segment := parseSegTotal q g.gs,
            ge_segment := some (parseSegTotal q g.ge),
            transactions := [] ++ newTxs }, ?_, by simpa using hsum2, by simpa using hlen2⟩
  show runAsm q _ (g.gs :: ((g.txs.map TxRecs.recs).flatten ++ [g.ge])) = _
  simp only [runAsm, hstep1, Bind.bind, Except.bind]
  rw [runAsm_append, hrun2]
  simp only [Bind.bind, Except.bind, runAsm, hstep3]

theorem runAsm_doc (q : X12Parser) :
    ∀ (groups : List GroupRecs), groups.all (wfGroup q) = true →
    ∀ (fgs : List FunctionalGroup),
      ∃ newFgs, runAsm q ⟨fgs, none, none⟩ (docRecs groups) = .ok ⟨fgs ++ newFgs, none, none⟩ ∧
        newFgs.length = groups.length ∧
        (newFgs.map fun fg => (fg.transactions.map fun t => t.segments.length).sum).sum =
          (groups.map fun g => (g.txs.map fun t => t.body.length + 2).sum).sum := by
  intro groups
  induction groups with
  | nil =>
    intro _ fgs
    refine ⟨[], ?_, rfl, rfl⟩
    simp [docRecs, runAsm]
  | cons g gs ih =>
    intro hw fgs
    simp only [List.all_cons, Bool.and_eq_true] at hw
    obtain ⟨hwg, hwgs⟩ := hw
    obtain ⟨fgNew, hrun1, hsum1, hlen1⟩ := runAsm_group q g hwg fgs
    obtain ⟨newFgs, hrun2, hlen2, hsum2⟩ := ih hwgs (fgs ++ [fgNew])
    refine ⟨fgNew :: newFgs, ?_, by simp [hlen2], ?_⟩
    · show runAsm q _ (g.recs ++ docRecs gs) = _
      rw [runAsm_append, hrun1]
      simp only [Bind.bind, Except.bind]
      rw [hrun2]
      simp
    · simp only [List.map_cons, List.sum_cons, hsum1, hsum2]

theorem txRecs_length (t : TxRecs) : t.recs.length = t.body.length + 2 := by
  simp [TxRecs.recs]

theorem groupRecs_length (g : GroupRecs) :
    g.recs.length = (g.txs.map fun t => t.body.length + 2).sum + 2 := by
  unfold GroupRecs.recs
  simp only [List.length_cons, List.length_append, List.length_flatten, List.map_map]
  have : (List.map (List.length ∘ TxRecs.recs) g.txs) =
      (g.txs.map fun t => t.body.length + 2) :=
    List.map_congr_left fun t _ => txRecs_length t
  rw [this]
  simp

theorem sum_map_add_const {α : Type} (l : List α) (f : α → Nat) (c : Nat) :
    (l.map fun x => f x + c).sum = (l.map f).sum + c * l.length := by
  induction l with
  | nil => simp
  | cons a as ih =>
    simp only [List.map_cons, List.sum_cons, ih, List.length_cons]
    ring

theorem docRecs_length (groups : List GroupRecs) :
    (docRecs groups).length =
      (groups.map fun g => (g.txs.map fun t => t.body.length + 2).sum).sum +
        2 * groups.length := by
  unfold docRecs
  simp only [List.length_flatten, List.map_map]
  have : (List.map (List.length ∘ GroupRecs.recs) groups) =
      (groups.map fun g => (g.txs.map fun t => t.body.length + 2).sum + 2) :=
    List.map_congr_left fun g _ => groupRecs_length g
  rw [this, sum_map_add_const]

/-- C2 counterexample: for the fully well-formed seven-record document
c2input (ISA, GS, ST, PO1, SE, GE, IEA), the total segment count across
all transactions is 3 (ST, PO1, SE), not 7 minus 2: the GS and GE records
live on the functional group and are counted by neither the interchange
header nor the trailer. -/
theorem hierarchy_conservation_counterexample :
    (x12Parse X12Parser.default c2input).toOption.map totalSegments = some 3 ∧
    (nonBlankRecords '~' c2input).length = 7 ∧
    (3 : Nat) ≠ 7 - 2 :=
  ⟨rfl, rfl, by decide⟩

/-- C2 amended: for a well-formed document (header record, then groups
each consisting of a GS record, transactions each bracketed by ST and SE
records, and a GE record, then a trailer-like record), the total segment
count across all transactions of all functional groups equals the
non-blank record count minus the interchange header and trailer records
and minus the group header and trailer records (two per functional
group). -/
theorem hierarchy_conservation_amended (p : X12Parser) (input : String)
    (isaRec ieaRec : String) (groups : List GroupRecs) (q : X12Parser)
    (hrecs : nonBlankRecords p.segment_separator input = isaRec :: (docRecs groups ++ [ieaRec]))
    (hisa : exceptIsOk (parseIsaSegment p isaRec) = true)
    (hq : resolveDelims p isaRec = .ok q)
    (hgroups : groups.all (wfGroup q) = true)
    (hiea : isBodyRec q ieaRec = true) :
    ∃ ic, x12Parse p input = .ok ic ∧
      ic.functional_groups.length = groups.length ∧
      totalSegments ic + 2 + 2 * groups.length =
        (nonBlankRecords p.segment_separator input).length := by
  obtain ⟨isa, hisa2⟩ : ∃ s, parseIsaSegment p isaRec = .ok s := by
    cases hpi : parseIsaSegment p isaRec with
    | error e => rw [hpi] at hisa; simp [exceptIsOk] at hisa
    | ok s => exact ⟨s, rfl⟩
  obtain ⟨newFgs, hrun, hlen, hsum⟩ := runAsm_doc q groups hgroups []
  have hrunFull : runAsm q ⟨[], none, none⟩ (docRecs groups ++ [ieaRec]) =
      .ok ⟨[] ++ newFgs, none, none⟩ := by
    rw [runAsm_append, hrun]
    simp only [Bind.bind, Except.bind, runAsm, isBodyRec_step_none q ieaRec hiea]
  have hparse := x12Parse_eq p input isaRec (docRecs groups ++ [ieaRec]) isa q
    ⟨[] ++ newFgs, none, none⟩ hrecs hisa2 hq hrunFull
  refine ⟨_, hparse, ?_, ?_⟩
  · show (finalizeAsm ⟨[] ++ newFgs, none, none⟩).length = groups.length
    simpa [finalizeAsm] using hlen
  · have hfin : finalizeAsm ⟨[] ++ newFgs, none, none⟩ = newFgs := by
      simp [finalizeAsm]
    have hlenrec : (nonBlankRecords p.segment_separator input).length =
        (groups.map fun g => (g.txs.map fun t => t.body.length + 2).sum).sum +
          2 * groups.length + 2 := by
      rw [hrecs]
      simp [docRecs_length]
    show ((finalizeAsm ⟨[] ++ newFgs, none, none⟩).map fun fg =>
        (fg.transactions.map fun t => t.segments.length).sum).sum + 2 + 2 * groups.length =
      (nonBlankRecords p.segment_separator input).length
    rw [hfin, hsum, hlenrec]
    omega

/-- C2 amended witness: the concrete seven-record document has one group
and total transaction segment count 3, with 3 + 2 + 2 = 7. -/
theorem hierarchy_conservation_amended_witness :
    ∃ ic, x12Parse X12Parser.default c2input = .ok ic ∧
      ic.functional_groups.length = c2groups.length ∧
      totalSegments ic + 2 + 2 * c2groups.length =
        (nonBlankRecords X12Parser.default.segment_separator c2input).length :=
  hierarchy_conservation_amended X12Parser.default c2input
    "ISA*1*2*3*4*5*6*7*8*9*10*11*12*13*14*x*>" "IEA*1*1" c2groups c2q
    (by rfl) (by rfl) (by rfl) (by decide) (by decide)

end EDI
